import Mathlib

/-!
Door-lock controller (src/main.cpp): shallow embedding and verification.

The Arduino sketch is a single-threaded controller: `setup()` runs once at boot and
`loop()` runs forever afterwards.  The sketch is embedded as state-passing functions over
a record `Sys` holding

* the three global flags of the sketch,
* the output latches of the three driven pins, the display memory and the sensor's
  `fingerID` register,
* a chronological trace of every peripheral call the program makes,
* the scripted answers of the environment: one finite list per input source
  (keypad, limit switch, each fingerprint-sensor operation).

A peripheral read consumes the head of its list.  A run has one of three outcomes:
`done` (the function returned), `halted` (the `while (1)` of `setup()` was entered) or
`blocked` (a read found its list exhausted: the program is still waiting for an answer
the script does not contain).

The display is modelled by its 2 x 16 visible cells: `lcd.print` writes from the cursor
on and what falls beyond column 15 is not shown.  The result codes `FINGERPRINT_OK` (0)
and `FINGERPRINT_NOFINGER` (2) and the default slot 1 of `image2Tz` are those of the
sensor library.
-/

namespace DoorLock

/-! Peripheral vocabulary -/

/-- Logic level of a digital pin. -/
inductive Level where
  | LOW
  | HIGH
  deriving DecidableEq

/-- The four pins named by the sketch (`relayPin = 12`, `relayPin2 = A0`,
`buzzerPin = A1`, `limitSwitchPin = 13`). -/
inductive Pin where
  | relayPin
  | relayPin2
  | buzzerPin
  | limitSwitchPin
  deriving DecidableEq

/-- Pin directions used by `pinMode`. -/
inductive PinMode where
  | OUTPUT
  | INPUT_PULLUP
  deriving DecidableEq

/-- Result code `FINGERPRINT_OK` of the sensor library. -/
def FINGERPRINT_OK : Nat := 0

/-- Result code `FINGERPRINT_NOFINGER` of the sensor library. -/
def FINGERPRINT_NOFINGER : Nat := 2

/-- Value `NO_KEY` returned by `keypad.getKey()` when no key is pressed. -/
def NO_KEY : Char := Char.ofNat 0

/-- One peripheral call, with the answer it received when it has one. -/
inductive Event where
  | serialBegin (baud : Nat)
  | softSerialBegin (baud : Nat)
  | serialPrint (text : String)
  | serialPrintln (text : String)
  | lcdInit
  | lcdBacklight
  | lcdClear
  | lcdSetCursor (col row : Nat)
  | lcdPrint (text : String)
  | pinMode (pin : Pin) (mode : PinMode)
  | digitalWrite (pin : Pin) (level : Level)
  | digitalRead (pin : Pin) (level : Level)
  | delay (ms : Nat)
  | sensorBegin (baud : Nat)
  | verifyPassword (ok : Bool)
  | getKey (key : Char)
  | getImage (code : Nat)
  | image2Tz (slot : Nat) (code : Nat)
  | createModel (code : Nat)
  | storeModel (id : Nat) (code : Nat)
  | deleteModel (id : Nat) (code : Nat)
  | fingerFastSearch (code : Nat) (fingerID : Nat)
  deriving DecidableEq

/-- True for the events that are fingerprint-sensor operations. -/
def Event.isSensorOp : Event → Bool
  | .verifyPassword _ => true
  | .getImage _ => true
  | .image2Tz _ _ => true
  | .createModel _ => true
  | .storeModel _ _ => true
  | .deleteModel _ _ => true
  | .fingerFastSearch _ _ => true
  | _ => false

/-- True for the events that write to the display. -/
def Event.isDisplayOp : Event → Bool
  | .lcdInit => true
  | .lcdBacklight => true
  | .lcdClear => true
  | .lcdSetCursor _ _ => true
  | .lcdPrint _ => true
  | _ => false

/-! State -/

/-- Program globals, device state, call trace and pending environment answers. -/
structure Sys where
  /-- Global `isLocked` (initialised to `true`). -/
  isLocked : Bool
  /-- Global `enteringEmergencyPassword`. -/
  enteringEmergencyPassword : Bool
  /-- Global `waitingForFingerprintDeletion`. -/
  waitingForFingerprintDeletion : Bool
  /-- Level last written to `relayPin`. -/
  relayPin : Level
  /-- Level last written to `relayPin2`. -/
  relayPin2 : Level
  /-- Level last written to `buzzerPin`. -/
  buzzerPin : Level
  /-- Field `finger.fingerID` of the sensor object. -/
  fingerID : Nat
  /-- Display cursor column. -/
  cursorCol : Nat
  /-- Display cursor row. -/
  cursorRow : Nat
  /-- Visible content of display row 0 (16 cells). -/
  row0 : List Char
  /-- Visible content of display row 1 (16 cells). -/
  row1 : List Char
  /-- Every peripheral call made so far, oldest first. -/
  trace : List Event
  /-- Pending answers of `keypad.getKey()`. -/
  keypadIn : List Char
  /-- Pending answers of `digitalRead(limitSwitchPin)`. -/
  limitSwitchIn : List Level
  /-- Pending answers of `finger.verifyPassword()`. -/
  verifyPasswordIn : List Bool
  /-- Pending answers of `finger.getImage()`. -/
  getImageIn : List Nat
  /-- Pending answers of `finger.image2Tz(slot)`. -/
  image2TzIn : List Nat
  /-- Pending answers of `finger.createModel()`. -/
  createModelIn : List Nat
  /-- Pending answers of `finger.storeModel(id)`. -/
  storeModelIn : List Nat
  /-- Pending answers of `finger.deleteModel(id)`. -/
  deleteModelIn : List Nat
  /-- Pending answers of `finger.fingerFastSearch()`: the result code and the value the
  call leaves in `finger.fingerID`. -/
  fingerFastSearchIn : List (Nat × Nat)
  deriving DecidableEq

/-- Outcome of running a piece of the program. -/
inductive Run (α : Type) where
  | done (a : α) (s : Sys)
  | halted (s : Sys)
  | blocked (s : Sys)
  deriving DecidableEq

/-- State in which a run ended, stopped or is waiting. -/
def Run.state {α : Type} : Run α → Sys
  | .done _ s => s
  | .halted s => s
  | .blocked s => s

/-- A program fragment returning a value of type `α`. -/
def M (α : Type) : Type := Sys → Run α

/-- Return without touching the state. -/
def M.pure {α : Type} (a : α) : M α := fun s => Run.done a s

/-- Sequencing: the continuation runs only when the first part returned. -/
def M.bind {α β : Type} (m : M α) (f : α → M β) : M β := fun s =>
  match m s with
  | .done a s1 => f a s1
  | .halted s1 => .halted s1
  | .blocked s1 => .blocked s1

instance : Monad M where
  pure := M.pure
  bind := M.bind

/-- Append one event to the trace. -/
def Sys.log (s : Sys) (e : Event) : Sys := { s with trace := s.trace ++ [e] }

/-- A peripheral call without an answer and without a modelled effect. -/
def emit (e : Event) : M Unit := fun s => .done () (s.log e)

/-- Read a global variable. -/
def gets {α : Type} (f : Sys → α) : M α := fun s => .done (f s) s

/-- The body `while (1) { delay(1); }`: control never leaves it. -/
def haltForever {α : Type} : M α := fun s => .halted s

/-- Assignment `isLocked = value`. -/
def set_isLocked (value : Bool) : M Unit := fun s => .done () { s with isLocked := value }

/-- Assignment `enteringEmergencyPassword = value`. -/
def set_enteringEmergencyPassword (value : Bool) : M Unit := fun s =>
  .done () { s with enteringEmergencyPassword := value }

/-- Assignment `waitingForFingerprintDeletion = value`. -/
def set_waitingForFingerprintDeletion (value : Bool) : M Unit := fun s =>
  .done () { s with waitingForFingerprintDeletion := value }

/-! Peripheral operations -/

/-- Call `Serial.print(text)`. -/
@[reducible] def Serial_print (text : String) : M Unit := emit (.serialPrint text)

/-- Call `Serial.println(text)`. -/
@[reducible] def Serial_println (text : String) : M Unit := emit (.serialPrintln text)

/-- Call `delay(ms)`: time passes, nothing else changes. -/
@[reducible] def delay (ms : Nat) : M Unit := emit (.delay ms)

/-- Call `pinMode(pin, mode)`. -/
@[reducible] def pinMode (pin : Pin) (mode : PinMode) : M Unit := emit (.pinMode pin mode)

/-- Call `digitalWrite(pin, level)`: the output latch of the pin takes the level. -/
def digitalWrite (pin : Pin) (level : Level) : M Unit := fun s =>
  let s1 := s.log (.digitalWrite pin level)
  match pin with
  | .relayPin => .done () { s1 with relayPin := level }
  | .relayPin2 => .done () { s1 with relayPin2 := level }
  | .buzzerPin => .done () { s1 with buzzerPin := level }
  | .limitSwitchPin => .done () s1

/-- Call `digitalRead(limitSwitchPin)`: the next scripted level of the limit switch. -/
def digitalRead_limitSwitchPin : M Level := fun s =>
  match s.limitSwitchIn with
  | [] => .blocked s
  | v :: rest => .done v ({ s with limitSwitchIn := rest }.log (.digitalRead .limitSwitchPin v))

/-- Call `keypad.getKey()`: the next scripted key, `NO_KEY` when none is pressed. -/
def keypad_getKey : M Char := fun s =>
  match s.keypadIn with
  | [] => .blocked s
  | k :: rest => .done k ({ s with keypadIn := rest }.log (.getKey k))

/-- Number of visible cells in a display row. -/
def lcdCols : Nat := 16

/-- A blank display row. -/
def blankRow : List Char := List.replicate lcdCols ' '

/-- Content of a 16-cell row after `text` is written from column `col` on; characters that
fall beyond the last visible column are not shown. -/
def writeAt (col : Nat) (text : List Char) (row : List Char) : List Char :=
  (List.range lcdCols).map fun i =>
    if col ≤ i ∧ i < col + text.length then text.getD (i - col) ' ' else row.getD i ' '

/-- Call `lcd.clear()`: both rows blank, cursor home. -/
def lcd_clear : M Unit := fun s =>
  .done () ({ s with row0 := blankRow, row1 := blankRow, cursorCol := 0, cursorRow := 0 }.log
    .lcdClear)

/-- Call `lcd.init()`: the display starts blank with the cursor home. -/
def lcd_init : M Unit := fun s =>
  .done () ({ s with row0 := blankRow, row1 := blankRow, cursorCol := 0, cursorRow := 0 }.log
    .lcdInit)

/-- Call `lcd.backlight()`. -/
@[reducible] def lcd_backlight : M Unit := emit .lcdBacklight

/-- Call `lcd.setCursor(col, row)`. -/
def lcd_setCursor (col row : Nat) : M Unit := fun s =>
  .done () ({ s with cursorCol := col, cursorRow := row }.log (.lcdSetCursor col row))

/-- Call `lcd.print(text)`: the text is written at the cursor, which moves past it. -/
def lcd_print (text : String) : M Unit := fun s =>
  let s1 := { s with cursorCol := s.cursorCol + text.length }.log (.lcdPrint text)
  if s.cursorRow = 0 then
    .done () { s1 with row0 := writeAt s.cursorCol text.toList s.row0 }
  else if s.cursorRow = 1 then
    .done () { s1 with row1 := writeAt s.cursorCol text.toList s.row1 }
  else
    .done () s1

/-- Call `mySerial.begin(baud)`. -/
@[reducible] def mySerial_begin (baud : Nat) : M Unit := emit (.softSerialBegin baud)

/-- Call `finger.begin(baud)`. -/
@[reducible] def finger_begin (baud : Nat) : M Unit := emit (.sensorBegin baud)

/-- Call `finger.verifyPassword()`. -/
def finger_verifyPassword : M Bool := fun s =>
  match s.verifyPasswordIn with
  | [] => .blocked s
  | r :: rest => .done r ({ s with verifyPasswordIn := rest }.log (.verifyPassword r))

/-- Call `finger.getImage()`. -/
def finger_getImage : M Nat := fun s =>
  match s.getImageIn with
  | [] => .blocked s
  | r :: rest => .done r ({ s with getImageIn := rest }.log (.getImage r))

/-- Call `finger.image2Tz(slot)`; the library's default slot is 1. -/
def finger_image2Tz (slot : Nat) : M Nat := fun s =>
  match s.image2TzIn with
  | [] => .blocked s
  | r :: rest => .done r ({ s with image2TzIn := rest }.log (.image2Tz slot r))

/-- Call `finger.createModel()`. -/
def finger_createModel : M Nat := fun s =>
  match s.createModelIn with
  | [] => .blocked s
  | r :: rest => .done r ({ s with createModelIn := rest }.log (.createModel r))

/-- Call `finger.storeModel(id)`. -/
def finger_storeModel (id : Nat) : M Nat := fun s =>
  match s.storeModelIn with
  | [] => .blocked s
  | r :: rest => .done r ({ s with storeModelIn := rest }.log (.storeModel id r))

/-- Call `finger.deleteModel(id)`. -/
def finger_deleteModel (id : Nat) : M Nat := fun s =>
  match s.deleteModelIn with
  | [] => .blocked s
  | r :: rest => .done r ({ s with deleteModelIn := rest }.log (.deleteModel id r))

/-- Call `finger.fingerFastSearch()`: returns the result code and leaves the matched
identifier in `finger.fingerID`. -/
def finger_fingerFastSearch : M Nat := fun s =>
  match s.fingerFastSearchIn with
  | [] => .blocked s
  | (r, fid) :: rest =>
    .done r ({ s with fingerFastSearchIn := rest, fingerID := fid }.log (.fingerFastSearch r fid))

/-- The busy-wait `while (finger.getImage() != code);` run against the pending answers
`answers`: each round is one `finger.getImage()` call, and the wait ends with the first
answer equal to `code`. -/
def pollGetImage (code : Nat) : List Nat → Sys → Run Unit
  | [], s => .blocked s
  | r :: rest, s =>
    let s1 := { s with getImageIn := rest }.log (.getImage r)
    if r ≠ code then pollGetImage code rest s1 else .done () s1

/-- The statement `while (finger.getImage() != code);`. -/
def whileGetImageNe (code : Nat) : M Unit := fun s => pollGetImage code s.getImageIn s

/-! The sketch -/

/-- Function `setupSystem()` (lines 171-176). -/
def setupSystem : M Unit := do
  lcd_setCursor 0 0
  lcd_print "A to use finger "
  lcd_setCursor 0 1
  lcd_print "                "

/-- Function `setLocked(locked)` (lines 261-276). -/
def setLocked (locked : Bool) : M Unit := do
  set_isLocked locked
  digitalWrite .relayPin (if locked then .HIGH else .LOW)
  lcd_setCursor 0 0
  if locked then do
    lcd_print "Locked          "
    lcd_setCursor 0 1
    lcd_print "                "
  else do
    lcd_print "Unlocked        "
    lcd_setCursor 0 1
    lcd_print "C to lock       "
    delay 1000
    lcd_clear

/-- Function `lockSystem()` (lines 278-283). -/
def lockSystem : M Unit := do
  setLocked true
  digitalWrite .relayPin2 .LOW
  delay 2000
  lcd_clear

/-- Function `unlockSystem()` (lines 285-291). -/
def unlockSystem : M Unit := do
  setLocked false
  lcd_setCursor 0 0
  lcd_print "Unlocked        "
  lcd_setCursor 0 1
  lcd_print "C to lock       "

/-- The error exit shared by the four failure branches of `enrollFingerprint()`. -/
def enrollError : M Unit := do
  lcd_setCursor 0 1
  lcd_print "Error           "
  delay 2000
  lcd_clear
  setupSystem

/-- Function `enrollFingerprint()` (lines 178-238), with `id = 1`. -/
def enrollFingerprint : M Unit := do
  lcd_setCursor 0 1
  lcd_print "                "
  whileGetImageNe FINGERPRINT_OK
  let r1 ← finger_image2Tz 1
  if r1 ≠ FINGERPRINT_OK then enrollError else do
  lcd_clear
  lcd_setCursor 0 0
  lcd_print "Remove Finger   "
  delay 2000
  whileGetImageNe FINGERPRINT_NOFINGER
  lcd_clear
  lcd_setCursor 0 0
  lcd_print "Place Again     "
  whileGetImageNe FINGERPRINT_OK
  let r2 ← finger_image2Tz 2
  if r2 ≠ FINGERPRINT_OK then enrollError else do
  let r3 ← finger_createModel
  if r3 ≠ FINGERPRINT_OK then enrollError else do
  let r4 ← finger_storeModel 1
  if r4 ≠ FINGERPRINT_OK then enrollError else do
  lcd_setCursor 0 0
  lcd_print "Locked          "
  lcd_setCursor 0 1
  lcd_print "                "
  lockSystem
  delay 2000
  lcd_clear

/-- Function `deleteFingerprint()` (lines 240-250), with `id = 1`. -/
def deleteFingerprint : M Unit := do
  lcd_setCursor 0 1
  let r ← finger_deleteModel 1
  (if r = FINGERPRINT_OK then lcd_print "Deleted         " else lcd_print "Error           ")
  delay 2000
  lcd_clear

/-- Function `isFingerprintMatched()` (lines 252-259), with `id = 1`. -/
def isFingerprintMatched : M Bool := do
  let r1 ← finger_getImage
  if r1 ≠ FINGERPRINT_OK then pure false else do
  let r2 ← finger_image2Tz 1
  if r2 ≠ FINGERPRINT_OK then pure false else do
  let r3 ← finger_fingerFastSearch
  if r3 ≠ FINGERPRINT_OK then pure false else do
  let fid ← gets (fun s => s.fingerID)
  if fid = 1 then pure true else pure false

/-- Function `setup()` (lines 49-86). -/
def setup : M Unit := do
  emit (.serialBegin 9600)
  lcd_init
  lcd_backlight
  lcd_setCursor 0 0
  lcd_print "Welcome"
  lcd_setCursor 0 1
  lcd_print "System Load"
  pinMode .relayPin .OUTPUT
  pinMode .relayPin2 .OUTPUT
  pinMode .buzzerPin .OUTPUT
  pinMode .limitSwitchPin .INPUT_PULLUP
  setLocked true
  mySerial_begin 57600
  finger_begin 57600
  delay 1000
  Serial_println "Initializing fingerprint sensor..."
  lcd_setCursor 0 1
  let ok ← finger_verifyPassword
  (if ok then do
    lcd_print "System Ok   "
    Serial_println "Fingerprint sensor initialized successfully."
  else do
    lcd_print "Finger Err"
    Serial_println "Error: Unable to initialize fingerprint sensor."
    haltForever)
  delay 2000
  lcd_clear
  setupSystem

/-- Function `resetSystem()` (lines 293-297). -/
def resetSystem : M Unit := do
  Serial_println "System reset"
  lcd_clear
  setup

/-- Function `handleEmergencyUnlock(key)` (lines 299-311). -/
def handleEmergencyUnlock (key : Char) : M Unit :=
  if key = '5' then do
    unlockSystem
    set_enteringEmergencyPassword false
  else do
    set_enteringEmergencyPassword false
    lcd_setCursor 0 0
    lcd_print "Wrong Password  "
    delay 2000
    lcd_clear
    setupSystem

/-- The exit shared by the three failure branches of `handleFingerprintDeletion()`:
the message on row 1, a pause, the "Press D" prompt, and the flag cleared. -/
def deletionError (message : String) : M Unit := do
  lcd_setCursor 0 1
  lcd_print message
  delay 2000
  lcd_clear
  lcd_setCursor 0 0
  lcd_print "Press D to      "
  lcd_setCursor 0 1
  lcd_print "delete fingerprint"
  set_waitingForFingerprintDeletion false

/-- Function `handleFingerprintDeletion()` (lines 313-362). -/
def handleFingerprintDeletion : M Unit := do
  lcd_setCursor 0 0
  lcd_print "Place finger    "
  lcd_setCursor 0 1
  lcd_print "to delete       "
  whileGetImageNe FINGERPRINT_OK
  let r1 ← finger_image2Tz 1
  if r1 ≠ FINGERPRINT_OK then deletionError "Error           " else do
  let r2 ← finger_fingerFastSearch
  if r2 ≠ FINGERPRINT_OK then deletionError "Not Found       " else do
  let fid ← gets (fun s => s.fingerID)
  if fid = 1 then do
    deleteFingerprint
    unlockSystem
    setupSystem
    set_waitingForFingerprintDeletion false
  else
    deletionError "Wrong Finger    "

/-- The `switch (key)` of `loop()` (lines 99-149), taken in Normal mode. -/
def loop_switch (key : Char) : M Unit :=
  if key = 'A' then do
    lcd_setCursor 0 0
    lcd_print "Place Finger    "
    lcd_setCursor 0 1
    lcd_print "                "
    enrollFingerprint
  else if key = 'B' then do
    set_enteringEmergencyPassword true
    lcd_setCursor 0 0
    lcd_print "Emergency       "
    lcd_setCursor 0 1
    lcd_print "Press 5         "
  else if key = 'C' then do
    let door ← digitalRead_limitSwitchPin
    if door = .HIGH then do
      digitalWrite .buzzerPin .HIGH
      lcd_setCursor 0 0
      lcd_print "Not Closed      "
      delay 1000
      digitalWrite .buzzerPin .LOW
      Serial_println "Door not locked, buzzer ON"
    else do
      lockSystem
      Serial_println "Door locked, deactivating relay"
      lcd_setCursor 0 0
      lcd_print "D to delete     "
      lcd_setCursor 0 1
      lcd_print "Locked          "
  else if key = 'D' then do
    lcd_setCursor 0 0
    lcd_print "Place finger    "
    lcd_setCursor 0 1
    lcd_print "to delete       "
    set_waitingForFingerprintDeletion true
  else if key = '#' then
    resetSystem
  else do
    lcd_setCursor 0 0
    lcd_print "Invalid Option  "
    delay 2000
    lcd_clear
    setupSystem

/-- The body of `if (key) { ... }` in `loop()` (lines 91-150): the dispatch of one key. -/
def loop_dispatch (key : Char) : M Unit := do
  lcd_clear
  Serial_print "Key pressed: "
  Serial_println (String.singleton key)
  let emergency ← gets (fun s => s.enteringEmergencyPassword)
  if emergency then handleEmergencyUnlock key else do
  let deleting ← gets (fun s => s.waitingForFingerprintDeletion)
  if deleting then pure () else loop_switch key

/-- The keypad part of `loop()` (lines 89-151). -/
def loop_keypad : M Unit := do
  let key ← keypad_getKey
  if key ≠ NO_KEY then loop_dispatch key else pure ()

/-- The limit-switch section of `loop()` (lines 153-162). -/
def loop_limitSwitch : M Unit := do
  let door ← digitalRead_limitSwitchPin
  if door = .LOW then do
    digitalWrite .relayPin2 .LOW
    Serial_println "Limit switch activated, relay OFF"
  else do
    digitalWrite .relayPin2 .HIGH
    Serial_println "Limit switch not activated, relay ON"

/-- The tail of `loop()` (lines 164-168). -/
def loop_tail : M Unit := do
  let deleting ← gets (fun s => s.waitingForFingerprintDeletion)
  if deleting then handleFingerprintDeletion else do
  let matched ← isFingerprintMatched
  let locked ← gets (fun s => s.isLocked)
  if matched && locked then unlockSystem else pure ()

/-- Function `loop()` (lines 88-169). -/
def loop : M Unit := do
  loop_keypad
  loop_limitSwitch
  loop_tail

/-- State of the microcontroller at power-on, before `setup()`: the globals hold their
initialisers, no pin is driven, the display is blank, nothing has been called, and the
environment has no answer scripted. -/
def Sys.powerOn : Sys where
  isLocked := true
  enteringEmergencyPassword := false
  waitingForFingerprintDeletion := false
  relayPin := .LOW
  relayPin2 := .LOW
  buzzerPin := .LOW
  fingerID := 0
  cursorCol := 0
  cursorRow := 0
  row0 := blankRow
  row1 := blankRow
  trace := []
  keypadIn := []
  limitSwitchIn := []
  verifyPasswordIn := []
  getImageIn := []
  image2TzIn := []
  createModelIn := []
  storeModelIn := []
  deleteModelIn := []
  fingerFastSearchIn := []

/-! Specification vocabulary -/

/-- Every run of `m`, whatever its outcome, takes a state `s` to a state related to `s`
by `R`. -/
def Sat {α : Type} (R : Sys → Sys → Prop) (m : M α) : Prop := ∀ s, R s (m s).state

/-- The peripheral calls that neither drive a pin nor read the keypad or the limit
switch: serial output, delays, pin-direction setup, display operations, sensor operations
and reads of a global. -/
inductive Ambient : {α : Type} → M α → Prop where
  | emit (e : Event) : Ambient (emit e)
  | gets {α : Type} (f : Sys → α) : Ambient (gets f)
  | lcd_clear : Ambient lcd_clear
  | lcd_init : Ambient lcd_init
  | lcd_setCursor (c r : Nat) : Ambient (lcd_setCursor c r)
  | lcd_print (t : String) : Ambient (lcd_print t)
  | verifyPassword : Ambient finger_verifyPassword
  | getImage : Ambient finger_getImage
  | image2Tz (slot : Nat) : Ambient (finger_image2Tz slot)
  | createModel : Ambient finger_createModel
  | storeModel (id : Nat) : Ambient (finger_storeModel id)
  | deleteModel (id : Nat) : Ambient (finger_deleteModel id)
  | fingerFastSearch : Ambient finger_fingerFastSearch

/-- The second state has the same globals, the same pin latches and the same pending
keypad and limit-switch answers as the first. -/
def sameControl (s s1 : Sys) : Prop :=
  s1.isLocked = s.isLocked ∧
  s1.enteringEmergencyPassword = s.enteringEmergencyPassword ∧
  s1.waitingForFingerprintDeletion = s.waitingForFingerprintDeletion ∧
  s1.relayPin = s.relayPin ∧ s1.relayPin2 = s.relayPin2 ∧ s1.buzzerPin = s.buzzerPin ∧
  s1.keypadIn = s.keypadIn ∧ s1.limitSwitchIn = s.limitSwitchIn

/-- A relation between states that is reflexive, transitive and holds across every step
that keeps the globals, the pin latches and the pending keypad and limit-switch answers. -/
structure Frame (R : Sys → Sys → Prop) : Prop where
  refl : ∀ s, R s s
  trans : ∀ a b c, R a b → R b c → R a c
  ambient : ∀ s s1, sameControl s s1 → R s s1

/-- The primary relay agrees with the lock state: `relayPin` is HIGH iff `isLocked`. -/
def relayAgrees (s : Sys) : Prop := s.relayPin = .HIGH ↔ s.isLocked = true

/-- Mode Normal: neither mode flag is set. -/
def isNormal (s : Sys) : Prop :=
  s.enteringEmergencyPassword = false ∧ s.waitingForFingerprintDeletion = false

/-- Mode EmergencyEntry: `enteringEmergencyPassword` is set. -/
def isEmergencyEntry (s : Sys) : Prop := s.enteringEmergencyPassword = true

/-- Mode DeletionPending: `waitingForFingerprintDeletion` is set. -/
def isDeletionPending (s : Sys) : Prop := s.waitingForFingerprintDeletion = true

/-- Exactly one of the three modes holds. -/
def exactlyOneMode (s : Sys) : Prop :=
  (isNormal s ∧ ¬ isEmergencyEntry s ∧ ¬ isDeletionPending s) ∨
  (¬ isNormal s ∧ isEmergencyEntry s ∧ ¬ isDeletionPending s) ∨
  (¬ isNormal s ∧ ¬ isEmergencyEntry s ∧ isDeletionPending s)

/-- States reachable by completed `loop()` iterations from a state with both mode flags
clear. -/
inductive ReachFromNormal : Sys → Prop where
  | start (s : Sys) (hE : s.enteringEmergencyPassword = false)
      (hD : s.waitingForFingerprintDeletion = false) : ReachFromNormal s
  | step (s s1 : Sys) (h : ReachFromNormal s) (hloop : loop s = .done () s1) :
      ReachFromNormal s1

/-- States reachable after boot: `setup()` returned from some power-on state, then any
number of `loop()` iterations completed. -/
inductive ReachAfterBoot : Sys → Prop where
  | boot (s0 s : Sys) (hsetup : setup s0 = .done () s) : ReachAfterBoot s
  | step (s s1 : Sys) (h : ReachAfterBoot s) (hloop : loop s = .done () s1) :
      ReachAfterBoot s1

/-- The fingerprint-sensor operations among the events of a trace. -/
def sensorOps (t : List Event) : List Event := t.filter Event.isSensorOp

/-- The facts a relation needs, beyond `Frame`, to hold across every statement of the
sketch. -/
structure FullFrame (R : Sys → Sys → Prop) : Prop where
  frame : Frame R
  setLocked : ∀ b, Sat R (setLocked b)
  relayPin2 : ∀ v, Sat R (digitalWrite .relayPin2 v)
  buzzerPin : ∀ v, Sat R (digitalWrite .buzzerPin v)
  readLimit : Sat R digitalRead_limitSwitchPin
  getKey : Sat R keypad_getKey
  setEmergency : ∀ b, Sat R (set_enteringEmergencyPassword b)
  setDeletion : ∀ b, Sat R (set_waitingForFingerprintDeletion b)

/-- The step leaves the latch of `relayPin2` as it was. -/
def keepsRelayPin2 (s s1 : Sys) : Prop := s1.relayPin2 = s.relayPin2

/-- The step leaves `enteringEmergencyPassword` as it was. -/
def keepsEmergency (s s1 : Sys) : Prop :=
  s1.enteringEmergencyPassword = s.enteringEmergencyPassword

/-- The step leaves `waitingForFingerprintDeletion` as it was. -/
def keepsDeletion (s s1 : Sys) : Prop :=
  s1.waitingForFingerprintDeletion = s.waitingForFingerprintDeletion

/-- The step leaves both mode flags as they were. -/
def keepsFlags (s s1 : Sys) : Prop := keepsEmergency s s1 ∧ keepsDeletion s s1

/-- The two mode flags are not both set. -/
def noFlagClash (s : Sys) : Prop :=
  ¬ (s.enteringEmergencyPassword = true ∧ s.waitingForFingerprintDeletion = true)

/-- The step does not create a clash of the mode flags. -/
def preservesNoFlagClash (s s1 : Sys) : Prop := noFlagClash s → noFlagClash s1

/-- The step does not break the agreement of the primary relay with the lock state. -/
def preservesRelayAgrees (s s1 : Sys) : Prop := relayAgrees s → relayAgrees s1

/-- The step does not lock an unlocked system. -/
def staysUnlocked (s s1 : Sys) : Prop := s.isLocked = false → s1.isLocked = false

/-- The step does not add pending limit-switch answers. -/
def limitNotLonger (s s1 : Sys) : Prop := s1.limitSwitchIn.length ≤ s.limitSwitchIn.length

/-- Unlocked state with a finger on the sensor that matches template 1. -/
def c8State : Sys :=
  { Sys.powerOn with
    isLocked := false
    getImageIn := [FINGERPRINT_OK]
    image2TzIn := [FINGERPRINT_OK]
    fingerFastSearchIn := [(FINGERPRINT_OK, 1)] }

/-- Start of the one-iteration example for the mode flags: Normal mode, key 'B' pressed,
door open, no finger on the sensor. -/
def c4Start : Sys :=
  { Sys.powerOn with
    keypadIn := ['B']
    limitSwitchIn := [.HIGH]
    getImageIn := [FINGERPRINT_NOFINGER] }

/-- Power-on state for the reset example: the sensor answers both health checks, the
operator presses 'B', '5' and then '#', the door stays open and no finger is presented. -/
def c1BootReset : Sys :=
  { Sys.powerOn with
    verifyPasswordIn := [true, true]
    keypadIn := ['B', '5', '#']
    limitSwitchIn := [.HIGH, .HIGH, .HIGH]
    getImageIn := [FINGERPRINT_NOFINGER, FINGERPRINT_NOFINGER, FINGERPRINT_NOFINGER] }

/-- Power-on state for the enrollment example: the operator presses 'B', '5' and then
'A' and enrolls a finger successfully, the door stays open throughout. -/
def c1BootEnroll : Sys :=
  { Sys.powerOn with
    verifyPasswordIn := [true]
    keypadIn := ['B', '5', 'A']
    limitSwitchIn := [.HIGH, .HIGH, .HIGH]
    getImageIn := [FINGERPRINT_NOFINGER, FINGERPRINT_NOFINGER, FINGERPRINT_OK,
      FINGERPRINT_NOFINGER, FINGERPRINT_OK, FINGERPRINT_NOFINGER]
    image2TzIn := [FINGERPRINT_OK, FINGERPRINT_OK]
    createModelIn := [FINGERPRINT_OK]
    storeModelIn := [FINGERPRINT_OK] }

/-- The sketch as the Arduino core runs it, cut after `n` iterations: `setup()` once, then
`loop()` `n` times. -/
def sketch : Nat → M Unit
  | 0 => setup
  | n + 1 => sketch n >>= fun _ => loop

/-- Idle iteration: no key, door open, no finger. -/
def c3State : Sys :=
  { Sys.powerOn with
    keypadIn := [NO_KEY]
    limitSwitchIn := [.HIGH]
    getImageIn := [FINGERPRINT_NOFINGER] }

/-- A finger matching template 1 is on the sensor. -/
def c6State : Sys :=
  { Sys.powerOn with
    getImageIn := [FINGERPRINT_OK]
    image2TzIn := [FINGERPRINT_OK]
    fingerFastSearchIn := [(FINGERPRINT_OK, 1)] }

/-- No finger is on the sensor. -/
def c7State : Sys := { Sys.powerOn with getImageIn := [FINGERPRINT_NOFINGER] }

/-- Unlocked Normal-mode state with the door open. -/
def c9State : Sys := { Sys.powerOn with isLocked := false, limitSwitchIn := [.HIGH] }

/-- Unlocked Normal-mode state with the door closed. -/
def c10State : Sys := { Sys.powerOn with isLocked := false, limitSwitchIn := [.LOW] }

/-- The answers a wait `while (finger.getImage() != code);` consumes from the pending
answers: everything up to and including the first `code`. -/
def consumedThrough (code : Nat) : List Nat → List Nat
  | [] => []
  | r :: rest => if r ≠ code then r :: consumedThrough code rest else [r]

/-- The answers left pending once everything up to and including the first `code` has
been discarded. -/
def remainingAfter (code : Nat) : List Nat → List Nat
  | [] => []
  | r :: rest => if r ≠ code then remainingAfter code rest else rest

/-- Deletion pending, locked, the enrolled finger is presented after one empty poll and
the sensor deletes the template. -/
def c13State : Sys :=
  { Sys.powerOn with
    waitingForFingerprintDeletion := true
    relayPin := .HIGH
    getImageIn := [FINGERPRINT_NOFINGER, FINGERPRINT_OK]
    image2TzIn := [FINGERPRINT_OK]
    fingerFastSearchIn := [(FINGERPRINT_OK, 1)]
    deleteModelIn := [FINGERPRINT_OK] }

/-- Deletion pending, locked, a finger is presented whose features cannot be extracted. -/
def c14State : Sys :=
  { Sys.powerOn with
    waitingForFingerprintDeletion := true
    relayPin := .HIGH
    getImageIn := [FINGERPRINT_OK]
    image2TzIn := [1]
    fingerFastSearchIn := [(FINGERPRINT_OK, 1)]
    deleteModelIn := [FINGERPRINT_OK] }

/-- The state without its call history: globals, pin latches, sensor register, display
and pending answers. -/
def Sys.device (s : Sys) : Sys := { s with trace := [] }

/-- The outcome of a run with the call history of its state erased. -/
def Run.device {α : Type} : Run α → Run α
  | .done a s => .done a s.device
  | .halted s => .halted s.device
  | .blocked s => .blocked s.device

/-- The calls with which `enrollFingerprint()` starts, up to its first wait. -/
def enrollStartEvents : List Event := [.lcdSetCursor 0 1, .lcdPrint "                "]

/-- The calls of the error exit of `enrollFingerprint()`. -/
def enrollErrorEvents : List Event :=
  [.lcdSetCursor 0 1, .lcdPrint "Error           ", .delay 2000, .lcdClear,
   .lcdSetCursor 0 0, .lcdPrint "A to use finger ", .lcdSetCursor 0 1,
   .lcdPrint "                "]

/-- The calls `enrollFingerprint()` makes between a successful `image2Tz(1)` and the
wait for the finger to be removed. -/
def enrollRemoveEvents : List Event :=
  [.lcdClear, .lcdSetCursor 0 0, .lcdPrint "Remove Finger   ", .delay 2000]

/-- The calls `enrollFingerprint()` makes between the wait for removal and the wait for
the second placement. -/
def enrollAgainEvents : List Event :=
  [.lcdClear, .lcdSetCursor 0 0, .lcdPrint "Place Again     "]

/-- The calls of the success exit of `enrollFingerprint()`: the "Locked" message, then
`lockSystem()` (whose `setLocked(true)` drives `relayPin` HIGH), the pause and the clear. -/
def enrollLockEvents : List Event :=
  [.lcdSetCursor 0 0, .lcdPrint "Locked          ", .lcdSetCursor 0 1,
   .lcdPrint "                ",
   .digitalWrite .relayPin .HIGH, .lcdSetCursor 0 0, .lcdPrint "Locked          ",
   .lcdSetCursor 0 1, .lcdPrint "                ",
   .digitalWrite .relayPin2 .LOW, .delay 2000, .lcdClear,
   .delay 2000, .lcdClear]

/-- The `getImage` calls of a wait for `code` that finds it among the pending answers
`l`. -/
def waitEvents (code : Nat) (l : List Nat) : List Event :=
  (consumedThrough code l).map Event.getImage

/-- True for a sensor step of the enrollment that did not answer `FINGERPRINT_OK`:
`image2Tz`, `createModel` or `storeModel`. -/
def Event.isFailedEnrollStep : Event → Bool
  | .image2Tz _ code => code != FINGERPRINT_OK
  | .createModel code => code != FINGERPRINT_OK
  | .storeModel _ code => code != FINGERPRINT_OK
  | _ => false

/-- A finger is placed, removed and placed again, and every enrollment step succeeds. -/
def c11State : Sys :=
  { Sys.powerOn with
    isLocked := false
    getImageIn := [FINGERPRINT_OK, FINGERPRINT_NOFINGER, FINGERPRINT_OK]
    image2TzIn := [FINGERPRINT_OK, FINGERPRINT_OK]
    createModelIn := [FINGERPRINT_OK]
    storeModelIn := [FINGERPRINT_OK] }

/-- Normal mode, key 'A': the finger is placed, removed and placed again, every enrollment
step succeeds, and the finger (now enrolled as template 1) is still on the sensor when
the tail of the same iteration scans it. -/
def c12State : Sys :=
  { Sys.powerOn with
    isLocked := false
    keypadIn := ['A']
    limitSwitchIn := [.LOW]
    getImageIn := [FINGERPRINT_OK, FINGERPRINT_NOFINGER, FINGERPRINT_OK, FINGERPRINT_OK]
    image2TzIn := [FINGERPRINT_OK, FINGERPRINT_OK, FINGERPRINT_OK]
    createModelIn := [FINGERPRINT_OK]
    storeModelIn := [FINGERPRINT_OK]
    fingerFastSearchIn := [(FINGERPRINT_OK, 1)] }

/-- Normal mode, key 'A': a successful enrollment, after which the finger is lifted before
the tail of the iteration scans the sensor. -/
def c12Lifted : Sys :=
  { Sys.powerOn with
    isLocked := false
    keypadIn := ['A']
    limitSwitchIn := [.LOW]
    getImageIn := [FINGERPRINT_OK, FINGERPRINT_NOFINGER, FINGERPRINT_OK,
      FINGERPRINT_NOFINGER]
    image2TzIn := [FINGERPRINT_OK, FINGERPRINT_OK]
    createModelIn := [FINGERPRINT_OK]
    storeModelIn := [FINGERPRINT_OK] }

/-- Every returning run of `m` ends in a state satisfying `Q`. -/
def Post {α : Type} (Q : Sys → Prop) (m : M α) : Prop :=
  ∀ s a s1, m s = .done a s1 → Q s1

/-- The key dispatch of `loop()` without its branch "ignore keypad input while waiting for
fingerprint deletion": emergency entry or the Normal-mode switch. -/
def loop_dispatch_active (key : Char) : M Unit := do
  lcd_clear
  Serial_print "Key pressed: "
  Serial_println (String.singleton key)
  let emergency ← gets (fun s => s.enteringEmergencyPassword)
  if emergency then handleEmergencyUnlock key else loop_switch key

/-- States at the start of a `loop()` iteration after a boot from power-on: the globals
hold their initialisers (`isLocked = true`, both mode flags false) when `setup()` starts,
`setup()` returns, and any number of `loop()` iterations complete. -/
inductive ReachFromPowerOn : Sys → Prop where
  | boot (s0 s : Sys) (hL : s0.isLocked = true) (hE : s0.enteringEmergencyPassword = false)
      (hD : s0.waitingForFingerprintDeletion = false) (hsetup : setup s0 = .done () s) :
      ReachFromPowerOn s
  | step (s s1 : Sys) (h : ReachFromPowerOn s) (hloop : loop s = .done () s1) :
      ReachFromPowerOn s1

/-- Power-on state for the deletion example: the operator presses 'D' and presents a
finger that is not found by the search. -/
def c18Boot : Sys :=
  { Sys.powerOn with
    verifyPasswordIn := [true]
    keypadIn := ['D']
    limitSwitchIn := [.LOW]
    getImageIn := [FINGERPRINT_OK]
    image2TzIn := [FINGERPRINT_OK]
    fingerFastSearchIn := [(9, 0)] }

/-- Locked idle state: no key, door closed, the enrolled finger on the sensor. -/
def c19State : Sys :=
  { Sys.powerOn with
    relayPin := .HIGH
    keypadIn := [NO_KEY]
    limitSwitchIn := [.LOW]
    getImageIn := [FINGERPRINT_OK]
    image2TzIn := [FINGERPRINT_OK]
    fingerFastSearchIn := [(FINGERPRINT_OK, 1)] }

/-- The display as the program sees it: cursor position and the two visible rows. -/
structure Display where
  cursorCol : Nat
  cursorRow : Nat
  row0 : List Char
  row1 : List Char
  deriving DecidableEq

/-- The display part of a state. -/
def Sys.display (s : Sys) : Display :=
  { cursorCol := s.cursorCol, cursorRow := s.cursorRow, row0 := s.row0, row1 := s.row1 }

/-- The display after one recorded call: `lcd.init()` and `lcd.clear()` blank it,
`lcd.setCursor` moves the cursor, `lcd.print` writes at the cursor; every other call leaves
it as it is. -/
def Display.step (d : Display) : Event → Display
  | .lcdInit => { cursorCol := 0, cursorRow := 0, row0 := blankRow, row1 := blankRow }
  | .lcdClear => { cursorCol := 0, cursorRow := 0, row0 := blankRow, row1 := blankRow }
  | .lcdSetCursor col row => { d with cursorCol := col, cursorRow := row }
  | .lcdPrint text =>
    if d.cursorRow = 0 then
      { d with cursorCol := d.cursorCol + text.length
               row0 := writeAt d.cursorCol text.toList d.row0 }
    else if d.cursorRow = 1 then
      { d with cursorCol := d.cursorCol + text.length
               row1 := writeAt d.cursorCol text.toList d.row1 }
    else
      { d with cursorCol := d.cursorCol + text.length }
  | _ => d

/-- The display after a sequence of recorded calls. -/
def Display.replay (d : Display) (events : List Event) : Display :=
  events.foldl Display.step d

/-- The row the cursor is on; no row when the cursor is outside the two rows. -/
def Display.currentRow (d : Display) : Option (List Char) :=
  if d.cursorRow = 0 then some d.row0 else if d.cursorRow = 1 then some d.row1 else none

/-- A print of `text` on display `d` overwrites nothing it does not replace: the text is a
full 16-character line, or it is shorter and starts at column 0 of a blank row.  The
18-character "delete fingerprint" is left out of the judgement. -/
def printPlaced (d : Display) (text : String) : Prop :=
  text.length = lcdCols ∨ text = "delete fingerprint" ∨
  (text.length < lcdCols ∧ d.cursorCol = 0 ∧ d.currentRow = some blankRow)

instance (d : Display) (text : String) : Decidable (printPlaced d text) :=
  inferInstanceAs (Decidable (text.length = lcdCols ∨ text = "delete fingerprint" ∨
    (text.length < lcdCols ∧ d.cursorCol = 0 ∧ d.currentRow = some blankRow)))

/-- Judgement of one recorded call on display `d`: a print must satisfy `printPlaced`. -/
def eventPlaced (d : Display) : Event → Bool
  | .lcdPrint text => decide (printPlaced d text)
  | _ => true

/-- Every print of the recorded calls satisfies `printPlaced` on the display it finds. -/
def printsPlaced : Display → List Event → Bool
  | _, [] => true
  | d, e :: rest => eventPlaced d e && printsPlaced (d.step e) rest

/-- The second state's call history extends the first's by calls whose prints are all
placed, and its display is the first's display after those calls. -/
def placedRun (s s1 : Sys) : Prop :=
  ∃ new, s1.trace = s.trace ++ new ∧ s1.display = s.display.replay new ∧
    printsPlaced s.display new = true

/-- The pending sensor answers make an enrollment that starts now succeed: a finger is
reported present, then absent, then present again, and `image2Tz(1)`, `image2Tz(2)`,
`createModel()` and `storeModel(1)` all answer `FINGERPRINT_OK`. -/
def enrollmentSucceeds (s : Sys) : Prop :=
  FINGERPRINT_OK ∈ s.getImageIn ∧
  FINGERPRINT_NOFINGER ∈ remainingAfter FINGERPRINT_OK s.getImageIn ∧
  FINGERPRINT_OK ∈
    remainingAfter FINGERPRINT_NOFINGER (remainingAfter FINGERPRINT_OK s.getImageIn) ∧
  (∃ t, s.image2TzIn = FINGERPRINT_OK :: FINGERPRINT_OK :: t) ∧
  (∃ t, s.createModelIn = FINGERPRINT_OK :: t) ∧
  (∃ t, s.storeModelIn = FINGERPRINT_OK :: t)

/-- Unlocked Normal-mode state with the door open: key 'A' is pressed, a finger is
presented and `image2Tz(1)` fails with code 6. -/
def c1EnrollFail : Sys :=
  { Sys.powerOn with
    isLocked := false
    keypadIn := ['A']
    limitSwitchIn := [.HIGH]
    getImageIn := [FINGERPRINT_OK, FINGERPRINT_NOFINGER]
    image2TzIn := [6] }

/-- Power-on state whose sensor fails the health check. -/
def c16BootFail : Sys := { Sys.powerOn with verifyPasswordIn := [false] }

/-- Power-on state whose sensor passes the health check. -/
def c16BootOk : Sys := { Sys.powerOn with verifyPasswordIn := [true] }

/-- Deletion pending and a finger whose features cannot be extracted. -/
def c16Deletion : Sys :=
  { Sys.powerOn with
    waitingForFingerprintDeletion := true
    getImageIn := [FINGERPRINT_OK]
    image2TzIn := [1] }

/-! Running the embedding -/

@[simp] theorem bind_run {α β : Type} (m : M α) (f : α → M β) (s : Sys) :
    (m >>= f) s = match m s with
      | .done a s1 => f a s1
      | .halted s1 => .halted s1
      | .blocked s1 => .blocked s1 := rfl

@[simp] theorem pure_run {α : Type} (a : α) (s : Sys) : (pure a : M α) s = .done a s := rfl

/-! Frame reasoning -/

theorem ambient_sameControl {α : Type} {m : M α} (h : Ambient m) (s : Sys) :
    sameControl s (m s).state := by
  cases h <;>
    first
    | exact ⟨rfl, rfl, rfl, rfl, rfl, rfl, rfl, rfl⟩
    | (simp only [lcd_print]; split_ifs <;> exact ⟨rfl, rfl, rfl, rfl, rfl, rfl, rfl, rfl⟩)
    | (simp only [finger_verifyPassword, finger_getImage, finger_image2Tz, finger_createModel,
        finger_storeModel, finger_deleteModel, finger_fingerFastSearch]
       split <;> exact ⟨rfl, rfl, rfl, rfl, rfl, rfl, rfl, rfl⟩)

theorem sat_prim {α : Type} {R : Sys → Sys → Prop} (F : Frame R) {m : M α} (h : Ambient m) :
    Sat R m := fun s => F.ambient _ _ (ambient_sameControl h s)

theorem sat_pure {α : Type} {R : Sys → Sys → Prop} (F : Frame R) (a : α) :
    Sat R (pure a : M α) := fun s => F.refl s

theorem sat_bind {α β : Type} {R : Sys → Sys → Prop} (F : Frame R) {m : M α}
    {f : α → M β} (hm : Sat R m) (hf : ∀ a, Sat R (f a)) : Sat R (m >>= f) := by
  intro s
  have h1 := hm s
  rw [bind_run]
  cases hms : m s with
  | done a s1 =>
    rw [hms] at h1
    exact F.trans _ _ _ h1 (hf a s1)
  | halted s1 => rw [hms] at h1; exact h1
  | blocked s1 => rw [hms] at h1; exact h1

theorem sat_haltForever {α : Type} {R : Sys → Sys → Prop} (F : Frame R) :
    Sat R (haltForever : M α) := fun s => F.refl s

theorem sat_pollGetImage {R : Sys → Sys → Prop} (F : Frame R) (code : Nat) :
    ∀ (l : List Nat) (s : Sys), s.getImageIn = l → R s (pollGetImage code l s).state := by
  intro l
  induction l with
  | nil => intro s _; exact F.refl s
  | cons r rest ih =>
    intro s hs
    have h1 := sat_prim F Ambient.getImage s
    simp only [finger_getImage, hs, Run.state] at h1
    simp only [pollGetImage]
    split
    · exact F.trans _ _ _ h1 (ih _ rfl)
    · exact h1

theorem sat_whileGetImageNe {R : Sys → Sys → Prop} (F : Frame R) (code : Nat) :
    Sat R (whileGetImageNe code) := fun s => sat_pollGetImage F code _ s rfl

theorem sat_setupSystem {R : Sys → Sys → Prop} (F : Frame R) : Sat R setupSystem := by
  unfold setupSystem
  repeat' first
    | with_reducible exact sat_prim F (by constructor)
    | with_reducible apply sat_bind F | (intro _)

theorem sat_enrollError {R : Sys → Sys → Prop} (F : Frame R) : Sat R enrollError := by
  unfold enrollError
  repeat' first
    | with_reducible exact sat_prim F (by constructor)
    | with_reducible exact sat_setupSystem F
    | with_reducible apply sat_bind F | (intro _)

theorem sat_lockSystem {R : Sys → Sys → Prop} (F : Frame R) (hL : Sat R (setLocked true))
    (h2 : ∀ v, Sat R (digitalWrite .relayPin2 v)) : Sat R lockSystem := by
  unfold lockSystem
  repeat' first
    | with_reducible exact sat_prim F (by constructor)
    | with_reducible exact hL | with_reducible exact h2 _
    | with_reducible apply sat_bind F | (intro _)

theorem sat_unlockSystem {R : Sys → Sys → Prop} (F : Frame R) (hU : Sat R (setLocked false)) :
    Sat R unlockSystem := by
  unfold unlockSystem
  repeat' first
    | with_reducible exact sat_prim F (by constructor)
    | with_reducible exact hU
    | with_reducible apply sat_bind F | (intro _)

theorem sat_enrollFingerprint {R : Sys → Sys → Prop} (F : Frame R) (hL : Sat R lockSystem) :
    Sat R enrollFingerprint := by
  unfold enrollFingerprint
  repeat' first
    | with_reducible exact sat_prim F (by constructor)
    | with_reducible exact sat_whileGetImageNe F _ | with_reducible exact sat_enrollError F
    | with_reducible exact hL
    | with_reducible apply sat_bind F | split | (intro _)

theorem sat_deleteFingerprint {R : Sys → Sys → Prop} (F : Frame R) :
    Sat R deleteFingerprint := by
  unfold deleteFingerprint
  repeat' first
    | with_reducible exact sat_prim F (by constructor)
    | with_reducible apply sat_bind F | split | (intro _)

theorem sat_isFingerprintMatched {R : Sys → Sys → Prop} (F : Frame R) :
    Sat R isFingerprintMatched := by
  unfold isFingerprintMatched
  repeat' first
    | with_reducible exact sat_prim F (by constructor)
    | with_reducible exact sat_pure F _
    | with_reducible apply sat_bind F | split | (intro _)

theorem sat_setup {R : Sys → Sys → Prop} (F : Frame R) (hL : Sat R (setLocked true)) :
    Sat R setup := by
  unfold setup
  repeat' first
    | with_reducible exact sat_prim F (by constructor)
    | with_reducible exact sat_setupSystem F | with_reducible exact sat_haltForever F
    | with_reducible exact hL
    | with_reducible apply sat_bind F | split | (intro _)

theorem sat_resetSystem {R : Sys → Sys → Prop} (F : Frame R) (hL : Sat R (setLocked true)) :
    Sat R resetSystem := by
  unfold resetSystem
  repeat' first
    | with_reducible exact sat_prim F (by constructor)
    | with_reducible exact sat_setup F hL
    | with_reducible apply sat_bind F | (intro _)

theorem sat_handleEmergencyUnlock {R : Sys → Sys → Prop} (F : Frame R)
    (hU : Sat R (setLocked false)) (hE : Sat R (set_enteringEmergencyPassword false))
    (key : Char) : Sat R (handleEmergencyUnlock key) := by
  unfold handleEmergencyUnlock
  repeat' first
    | with_reducible exact sat_prim F (by constructor)
    | with_reducible exact sat_setupSystem F | with_reducible exact sat_unlockSystem F hU
    | with_reducible exact hE
    | with_reducible apply sat_bind F | split | (intro _)

theorem sat_deletionError {R : Sys → Sys → Prop} (F : Frame R)
    (hD : Sat R (set_waitingForFingerprintDeletion false)) (message : String) :
    Sat R (deletionError message) := by
  unfold deletionError
  repeat' first
    | with_reducible exact sat_prim F (by constructor)
    | with_reducible exact hD
    | with_reducible apply sat_bind F | (intro _)

theorem sat_handleFingerprintDeletion {R : Sys → Sys → Prop} (F : Frame R)
    (hU : Sat R (setLocked false)) (hD : Sat R (set_waitingForFingerprintDeletion false)) :
    Sat R handleFingerprintDeletion := by
  unfold handleFingerprintDeletion
  repeat' first
    | with_reducible exact sat_prim F (by constructor)
    | with_reducible exact sat_whileGetImageNe F _
    | with_reducible exact sat_deletionError F hD _
    | with_reducible exact sat_deleteFingerprint F
    | with_reducible exact sat_setupSystem F | with_reducible exact sat_unlockSystem F hU
    | with_reducible exact hD
    | with_reducible apply sat_bind F | split | (intro _)

theorem sat_loop_limitSwitch {R : Sys → Sys → Prop} (F : Frame R)
    (hR : Sat R digitalRead_limitSwitchPin) (h2 : ∀ v, Sat R (digitalWrite .relayPin2 v)) :
    Sat R loop_limitSwitch := by
  unfold loop_limitSwitch
  repeat' first
    | with_reducible exact sat_prim F (by constructor)
    | with_reducible exact hR | with_reducible exact h2 _
    | with_reducible apply sat_bind F | split | (intro _)

theorem sat_loop_tail {R : Sys → Sys → Prop} (F : Frame R)
    (hU : Sat R (setLocked false)) (hD : Sat R (set_waitingForFingerprintDeletion false)) :
    Sat R loop_tail := by
  unfold loop_tail
  repeat' first
    | with_reducible exact sat_prim F (by constructor)
    | with_reducible exact sat_pure F _
    | with_reducible exact sat_handleFingerprintDeletion F hU hD
    | with_reducible exact sat_isFingerprintMatched F
    | with_reducible exact sat_unlockSystem F hU
    | with_reducible apply sat_bind F | split | (intro _)

theorem sat_loop_switch_of {R : Sys → Sys → Prop} (F : Frame R) (key : Char)
    (hA : key = 'A' → Sat R enrollFingerprint)
    (hB : key = 'B' → Sat R (set_enteringEmergencyPassword true))
    (hC : key = 'C' → Sat R digitalRead_limitSwitchPin ∧
      (∀ v, Sat R (digitalWrite .buzzerPin v)) ∧ Sat R lockSystem)
    (hD : key = 'D' → Sat R (set_waitingForFingerprintDeletion true))
    (hH : key = '#' → Sat R resetSystem) :
    Sat R (loop_switch key) := by
  unfold loop_switch
  repeat' first
    | with_reducible exact sat_prim F (by constructor)
    | with_reducible exact sat_setupSystem F
    | with_reducible exact hA (by assumption)
    | with_reducible exact hB (by assumption)
    | with_reducible exact (hC (by assumption)).1
    | with_reducible exact (hC (by assumption)).2.1 _
    | with_reducible exact (hC (by assumption)).2.2
    | with_reducible exact hD (by assumption)
    | with_reducible exact hH (by assumption)
    | with_reducible apply sat_bind F | split | (intro _)

theorem sat_loop_switch {R : Sys → Sys → Prop} (W : FullFrame R) (key : Char) :
    Sat R (loop_switch key) :=
  sat_loop_switch_of W.frame key
    (fun _ => sat_enrollFingerprint W.frame (sat_lockSystem W.frame (W.setLocked true) W.relayPin2))
    (fun _ => W.setEmergency true)
    (fun _ => ⟨W.readLimit, W.buzzerPin, sat_lockSystem W.frame (W.setLocked true) W.relayPin2⟩)
    (fun _ => W.setDeletion true)
    (fun _ => sat_resetSystem W.frame (W.setLocked true))

theorem sat_loop_dispatch {R : Sys → Sys → Prop} (W : FullFrame R) (key : Char) :
    Sat R (loop_dispatch key) := by
  have F := W.frame
  unfold loop_dispatch
  repeat' first
    | with_reducible exact sat_prim F (by constructor)
    | with_reducible exact sat_pure F _
    | with_reducible exact sat_loop_switch W _
    | with_reducible exact sat_handleEmergencyUnlock F (W.setLocked false) (W.setEmergency false) _
    | with_reducible apply sat_bind F | split | (intro _)

theorem sat_loop_keypad {R : Sys → Sys → Prop} (W : FullFrame R) : Sat R loop_keypad := by
  have F := W.frame
  unfold loop_keypad
  repeat' first
    | with_reducible exact sat_pure F _
    | with_reducible exact sat_loop_dispatch W _
    | with_reducible exact W.getKey
    | with_reducible apply sat_bind F | split | (intro _)

theorem sat_loop {R : Sys → Sys → Prop} (W : FullFrame R) : Sat R loop := by
  have F := W.frame
  unfold loop
  repeat' first
    | with_reducible exact sat_loop_keypad W
    | with_reducible exact sat_loop_limitSwitch F W.readLimit W.relayPin2
    | with_reducible exact sat_loop_tail F (W.setLocked false) (W.setDeletion false)
    | with_reducible apply sat_bind F | (intro _)

theorem bind_eq_done {α β : Type} {m : M α} {f : α → M β} {s s1 : Sys} {b : β} :
    (m >>= f) s = .done b s1 ↔ ∃ a sa, m s = .done a sa ∧ f a sa = .done b s1 := by
  rw [bind_run]
  cases hms : m s with
  | done a sa =>
    constructor
    · intro h; exact ⟨a, sa, rfl, h⟩
    · rintro ⟨a1, sa1, h1, h2⟩
      cases h1
      exact h2
  | halted sa => simp
  | blocked sa => simp

theorem frame_keepsRelayPin2 : Frame keepsRelayPin2 where
  refl := fun _ => rfl
  trans := fun _ _ _ h1 h2 => h2.trans h1
  ambient := fun _ _ h => h.2.2.2.2.1

theorem setLocked_keepsRelayPin2 (b : Bool) : Sat keepsRelayPin2 (setLocked b) := by
  intro s
  cases b <;>
    simp [setLocked, set_isLocked, digitalWrite, lcd_setCursor, lcd_print, lcd_clear, emit,
      Sys.log, Run.state, keepsRelayPin2]

theorem set_deletion_keepsRelayPin2 (b : Bool) :
    Sat keepsRelayPin2 (set_waitingForFingerprintDeletion b) := fun _ => rfl

theorem loop_limitSwitch_done {s sL : Sys} (h : loop_limitSwitch s = .done () sL) :
    ∃ v rest, s.limitSwitchIn = v :: rest ∧ sL.limitSwitchIn = rest ∧ sL.relayPin2 = v ∧
      sL.isLocked = s.isLocked := by
  cases hl : s.limitSwitchIn with
  | nil => simp [loop_limitSwitch, digitalRead_limitSwitchPin, hl] at h
  | cons v rest =>
    refine ⟨v, rest, rfl, ?_⟩
    cases v <;>
      simp [loop_limitSwitch, digitalRead_limitSwitchPin, digitalWrite, emit, Sys.log, hl] at h <;>
      subst h <;> simp

theorem loop_eq_done {s s1 : Sys} (h : loop s = .done () s1) :
    ∃ sK sL, loop_keypad s = .done () sK ∧ loop_limitSwitch sK = .done () sL ∧
      loop_tail sL = .done () s1 := by
  unfold loop at h
  obtain ⟨_, sK, hK, h⟩ := bind_eq_done.mp h
  obtain ⟨_, sL, hL, h⟩ := bind_eq_done.mp h
  exact ⟨sK, sL, hK, hL, h⟩

theorem Sat.mono {α : Type} {R R1 : Sys → Sys → Prop} {m : M α}
    (h : ∀ s s1, R s s1 → R1 s s1) (hm : Sat R m) : Sat R1 m := fun s => h _ _ (hm s)

theorem sat_gets_bind {α β : Type} {R : Sys → Sys → Prop} (f : Sys → α) (g : α → M β)
    (h : ∀ s, R s (g (f s) s).state) : Sat R (gets f >>= g) := fun s => h s

/-! The mode flags -/

theorem frame_keepsEmergency : Frame keepsEmergency where
  refl := fun _ => rfl
  trans := fun _ _ _ h1 h2 => h2.trans h1
  ambient := fun _ _ h => h.2.1

theorem frame_keepsDeletion : Frame keepsDeletion where
  refl := fun _ => rfl
  trans := fun _ _ _ h1 h2 => h2.trans h1
  ambient := fun _ _ h => h.2.2.1

theorem frame_keepsFlags : Frame keepsFlags where
  refl := fun _ => ⟨rfl, rfl⟩
  trans := fun _ _ _ h1 h2 => ⟨h2.1.trans h1.1, h2.2.trans h1.2⟩
  ambient := fun _ _ h => ⟨h.2.1, h.2.2.1⟩

theorem frame_preservesNoFlagClash : Frame preservesNoFlagClash where
  refl := fun _ h => h
  trans := fun _ _ _ h1 h2 h => h2 (h1 h)
  ambient := fun s s1 h hJ => by
    unfold noFlagClash at *
    rw [h.2.1, h.2.2.1]
    exact hJ

theorem keepsFlags_noFlagClash (s s1 : Sys) (h : keepsFlags s s1) :
    preservesNoFlagClash s s1 := by
  intro hJ
  unfold noFlagClash at *
  rw [h.1, h.2]
  exact hJ

theorem setLocked_keepsFlags (b : Bool) : Sat keepsFlags (setLocked b) := by
  intro s
  cases b <;>
    simp [setLocked, set_isLocked, digitalWrite, lcd_setCursor, lcd_print, lcd_clear, emit,
      Sys.log, Run.state, keepsFlags, keepsEmergency, keepsDeletion]

theorem digitalWrite_keepsFlags (pin : Pin) (v : Level) :
    Sat keepsFlags (digitalWrite pin v) := by
  intro s
  cases pin <;> exact ⟨rfl, rfl⟩

theorem readLimit_keepsFlags : Sat keepsFlags digitalRead_limitSwitchPin := by
  intro s
  unfold digitalRead_limitSwitchPin
  split <;> exact ⟨rfl, rfl⟩

theorem getKey_keepsFlags : Sat keepsFlags keypad_getKey := by
  intro s
  unfold keypad_getKey
  split <;> exact ⟨rfl, rfl⟩

theorem lockSystem_keepsFlags : Sat keepsFlags lockSystem :=
  sat_lockSystem frame_keepsFlags (setLocked_keepsFlags true)
    (digitalWrite_keepsFlags .relayPin2)

theorem loop_switch_keepsEmergency_D : Sat keepsEmergency (loop_switch 'D') :=
  sat_loop_switch_of frame_keepsEmergency 'D' (fun h => absurd h (by decide))
    (fun h => absurd h (by decide)) (fun h => absurd h (by decide))
    (fun _ _ => rfl) (fun h => absurd h (by decide))

theorem loop_switch_keepsDeletion (key : Char) (hkey : key ≠ 'D') :
    Sat keepsDeletion (loop_switch key) :=
  sat_loop_switch_of frame_keepsDeletion key
    (fun _ => Sat.mono (fun _ _ h => h.2)
      (sat_enrollFingerprint frame_keepsFlags lockSystem_keepsFlags))
    (fun _ _ => rfl)
    (fun _ => ⟨Sat.mono (fun _ _ h => h.2) readLimit_keepsFlags,
      fun v => Sat.mono (fun _ _ h => h.2) (digitalWrite_keepsFlags .buzzerPin v),
      Sat.mono (fun _ _ h => h.2) lockSystem_keepsFlags⟩)
    (fun h => absurd h hkey)
    (fun _ => Sat.mono (fun _ _ h => h.2)
      (sat_resetSystem frame_keepsFlags (setLocked_keepsFlags true)))

theorem loop_switch_noFlagClash (key : Char) (s : Sys)
    (hE : s.enteringEmergencyPassword = false)
    (hD : s.waitingForFingerprintDeletion = false) :
    noFlagClash (loop_switch key s).state := by
  by_cases hkey : key = 'D'
  · subst hkey
    have h := loop_switch_keepsEmergency_D s
    unfold keepsEmergency at h
    unfold noFlagClash
    rw [h, hE]
    simp
  · have h := loop_switch_keepsDeletion key hkey s
    unfold keepsDeletion at h
    unfold noFlagClash
    rw [h, hD]
    simp

theorem handleEmergencyUnlock_noFlagClash (key : Char) :
    Sat preservesNoFlagClash (handleEmergencyUnlock key) :=
  sat_handleEmergencyUnlock frame_preservesNoFlagClash
    (Sat.mono keepsFlags_noFlagClash (setLocked_keepsFlags false))
    (by
      intro s hJ
      simp only [set_enteringEmergencyPassword, Run.state, noFlagClash]
      simp)
    key

theorem loop_dispatch_noFlagClash (key : Char) :
    Sat preservesNoFlagClash (loop_dispatch key) := by
  have F := frame_preservesNoFlagClash
  unfold loop_dispatch
  refine sat_bind F (sat_prim F (by constructor)) fun _ => ?_
  refine sat_bind F (sat_prim F (by constructor)) fun _ => ?_
  refine sat_bind F (sat_prim F (by constructor)) fun _ => ?_
  refine sat_gets_bind _ _ fun s => ?_
  by_cases hE : s.enteringEmergencyPassword = true
  · simp only [hE, if_true]
    exact handleEmergencyUnlock_noFlagClash key s
  · simp only [hE]
    by_cases hD : s.waitingForFingerprintDeletion = true
    · simp only [Bool.false_eq_true, if_false, bind_run, gets, hD, if_true, pure_run, Run.state]
      exact F.refl s
    · simp only [Bool.false_eq_true, if_false, bind_run, gets, hD]
      intro _
      exact loop_switch_noFlagClash key s (by simpa using hE) (by simpa using hD)

theorem loop_noFlagClash : Sat preservesNoFlagClash loop := by
  have F := frame_preservesNoFlagClash
  have hU : Sat preservesNoFlagClash (setLocked false) :=
    Sat.mono keepsFlags_noFlagClash (setLocked_keepsFlags false)
  have hDel : Sat preservesNoFlagClash (set_waitingForFingerprintDeletion false) := by
    intro s hJ
    simp only [set_waitingForFingerprintDeletion, Run.state, noFlagClash]
    simp
  unfold loop
  refine sat_bind F ?_ fun _ => sat_bind F ?_ fun _ => ?_
  · unfold loop_keypad
    refine sat_bind F (Sat.mono keepsFlags_noFlagClash getKey_keepsFlags) fun key => ?_
    split
    · exact loop_dispatch_noFlagClash key
    · exact sat_pure F _
  · exact sat_loop_limitSwitch F (Sat.mono keepsFlags_noFlagClash readLimit_keepsFlags)
      (fun v => Sat.mono keepsFlags_noFlagClash (digitalWrite_keepsFlags .relayPin2 v))
  · exact sat_loop_tail F hU hDel

/-! The primary relay -/

theorem setLocked_run (b : Bool) (s : Sys) :
    ∃ s1, setLocked b s = .done () s1 ∧ s1.isLocked = b ∧
      s1.relayPin = (if b then .HIGH else .LOW) := by
  cases b <;>
    simp [setLocked, set_isLocked, digitalWrite, lcd_setCursor, lcd_print, lcd_clear, emit,
      Sys.log]

theorem frame_preservesRelayAgrees : Frame preservesRelayAgrees where
  refl := fun _ h => h
  trans := fun _ _ _ h1 h2 h => h2 (h1 h)
  ambient := fun s s1 h hA => by
    unfold relayAgrees at *
    rw [h.1, h.2.2.2.1]
    exact hA

theorem fullFrame_preservesRelayAgrees : FullFrame preservesRelayAgrees where
  frame := frame_preservesRelayAgrees
  setLocked := by
    intro b s _
    obtain ⟨s1, h1, h2, h3⟩ := setLocked_run b s
    rw [h1]
    simp only [Run.state, relayAgrees, h2, h3]
    cases b <;> simp
  relayPin2 := fun _ _ h => h
  buzzerPin := fun _ _ h => h
  readLimit := by
    intro s h
    unfold digitalRead_limitSwitchPin
    split <;> exact h
  getKey := by
    intro s h
    unfold keypad_getKey
    split <;> exact h
  setEmergency := fun _ _ h => h
  setDeletion := fun _ _ h => h

theorem setup_done {s0 s : Sys} (h : setup s0 = .done () s) :
    s.isLocked = true ∧ s.relayPin = .HIGH := by
  cases hv : s0.verifyPasswordIn with
  | nil =>
    simp [setup, setLocked, set_isLocked, digitalWrite, lcd_setCursor, lcd_print, lcd_clear,
      lcd_init, emit, Sys.log, finger_verifyPassword, hv] at h
  | cons ok rest =>
    cases ok
    · simp [setup, setLocked, set_isLocked, digitalWrite, lcd_setCursor, lcd_print,
        lcd_clear, lcd_init, emit, Sys.log, finger_verifyPassword, haltForever, hv] at h
    · simp [setup, setLocked, set_isLocked, digitalWrite, lcd_setCursor, lcd_print,
        lcd_clear, lcd_init, emit, Sys.log, finger_verifyPassword, setupSystem, hv] at h
      subst h
      simp

theorem lockSystem_run (s : Sys) :
    ∃ s1, lockSystem s = .done () s1 ∧ s1.isLocked = true ∧ s1.relayPin = .HIGH := by
  simp [lockSystem, setLocked, set_isLocked, digitalWrite, lcd_setCursor, lcd_print,
    lcd_clear, emit, Sys.log]

theorem unlockSystem_run (s : Sys) :
    ∃ s1, unlockSystem s = .done () s1 ∧ s1.isLocked = false ∧ s1.relayPin = .LOW := by
  simp [unlockSystem, setLocked, set_isLocked, digitalWrite, lcd_setCursor, lcd_print,
    lcd_clear, emit, Sys.log]

/-! The door interlock -/

theorem frame_staysUnlocked : Frame staysUnlocked where
  refl := fun _ h => h
  trans := fun _ _ _ h1 h2 h => h2 (h1 h)
  ambient := fun s s1 h hU => by rw [h.1]; exact hU

theorem setLocked_false_staysUnlocked : Sat staysUnlocked (setLocked false) := by
  intro s _
  obtain ⟨s1, h1, h2, _⟩ := setLocked_run false s
  rw [h1]
  exact h2

theorem frame_limitNotLonger : Frame limitNotLonger where
  refl := fun _ => Nat.le_refl _
  trans := fun _ _ _ h1 h2 => Nat.le_trans h2 h1
  ambient := fun s s1 h => by unfold limitNotLonger; rw [h.2.2.2.2.2.2.2]

theorem fullFrame_limitNotLonger : FullFrame limitNotLonger where
  frame := frame_limitNotLonger
  setLocked := by
    intro b s
    cases b <;>
      simp [setLocked, set_isLocked, digitalWrite, lcd_setCursor, lcd_print, lcd_clear, emit,
        Sys.log, Run.state, limitNotLonger]
  relayPin2 := fun _ _ => Nat.le_refl _
  buzzerPin := fun _ _ => Nat.le_refl _
  readLimit := by
    intro s
    unfold digitalRead_limitSwitchPin limitNotLonger
    split
    · exact Nat.le_refl _
    · rename_i v rest h
      simp [Run.state, Sys.log, h]
  getKey := by
    intro s
    unfold keypad_getKey
    split <;> exact Nat.le_refl _
  setEmergency := fun _ _ => Nat.le_refl _
  setDeletion := fun _ _ => Nat.le_refl _

theorem loop_switch_C_door_open (s : Sys) (tl : List Level)
    (hlim : s.limitSwitchIn = .HIGH :: tl) :
    (loop_switch 'C' s).state.isLocked = s.isLocked := by
  simp [loop_switch, digitalRead_limitSwitchPin, digitalWrite, lcd_setCursor, lcd_print,
    emit, Sys.log, Run.state, hlim]

theorem loop_switch_staysUnlocked (key : Char) (hA : key ≠ 'A') (hC : key ≠ 'C')
    (hH : key ≠ '#') : Sat staysUnlocked (loop_switch key) :=
  sat_loop_switch_of frame_staysUnlocked key (fun h => absurd h hA) (fun _ _ h => h)
    (fun h => absurd h hC) (fun _ _ h => h) (fun h => absurd h hH)

theorem loop_dispatch_run (key : Char) (s : Sys) :
    loop_dispatch key s =
      (if s.enteringEmergencyPassword = true then handleEmergencyUnlock key
       else if s.waitingForFingerprintDeletion = true then pure ()
       else loop_switch key)
      { s with
        row0 := blankRow, row1 := blankRow, cursorCol := 0, cursorRow := 0
        trace := s.trace ++ [.lcdClear] ++ [.serialPrint "Key pressed: "] ++
          [.serialPrintln (String.singleton key)] } := by
  cases hE : s.enteringEmergencyPassword <;> cases hD : s.waitingForFingerprintDeletion <;>
    simp [loop_dispatch, lcd_clear, emit, gets, Sys.log, hE, hD]

theorem loop_dispatch_staysUnlocked (key : Char) (s : Sys) (tl : List Level)
    (hU : s.isLocked = false)
    (hkey : isNormal s → key ≠ 'A' ∧ key ≠ '#')
    (hlim : s.limitSwitchIn = .HIGH :: tl) :
    (loop_dispatch key s).state.isLocked = false := by
  rw [loop_dispatch_run]
  by_cases hE : s.enteringEmergencyPassword = true
  · rw [if_pos hE]
    exact sat_handleEmergencyUnlock frame_staysUnlocked setLocked_false_staysUnlocked
      (fun _ h => h) key _ hU
  · rw [if_neg hE]
    by_cases hD : s.waitingForFingerprintDeletion = true
    · rw [if_pos hD]
      exact hU
    · rw [if_neg hD]
      have hN := hkey ⟨by simpa using hE, by simpa using hD⟩
      by_cases hC : key = 'C'
      · subst hC
        refine Eq.trans (loop_switch_C_door_open _ tl ?_) hU
        exact hlim
      · exact loop_switch_staysUnlocked key hN.1 hC hN.2 _ hU

theorem loop_keypad_staysUnlocked (s : Sys) (tl : List Level) (hU : s.isLocked = false)
    (hkey : isNormal s → s.keypadIn.head? ≠ some 'A' ∧ s.keypadIn.head? ≠ some '#')
    (hlim : s.limitSwitchIn = .HIGH :: tl) :
    (loop_keypad s).state.isLocked = false := by
  cases hk : s.keypadIn with
  | nil => simp [loop_keypad, keypad_getKey, hk, Run.state, hU]
  | cons k rest =>
    simp only [loop_keypad, bind_run, keypad_getKey, hk]
    split
    · refine loop_dispatch_staysUnlocked k _ tl hU ?_ hlim
      intro hN
      have h := hkey hN
      rw [hk] at h
      simpa using h
    · exact hU

theorem loop_keypad_reset_locks (s sK : Sys) (hN : isNormal s)
    (hk : s.keypadIn.head? = some '#') (h : loop_keypad s = .done () sK) :
    sK.isLocked = true := by
  cases hl : s.keypadIn with
  | nil => rw [hl] at hk; simp at hk
  | cons k rest =>
    rw [hl] at hk
    simp only [List.head?_cons, Option.some.injEq] at hk
    subst hk
    have hne : ('#' : Char) ≠ NO_KEY := by decide
    simp only [loop_keypad, bind_run, keypad_getKey, hl] at h
    rw [if_pos hne, loop_dispatch_run] at h
    have hE : ¬ (s.enteringEmergencyPassword = true) := by simp [hN.1]
    have hD : ¬ (s.waitingForFingerprintDeletion = true) := by simp [hN.2]
    simp only [Sys.log] at h
    rw [if_neg hE, if_neg hD] at h
    have hsw : loop_switch '#' = resetSystem := by
      unfold loop_switch
      simp
    rw [hsw] at h
    unfold resetSystem at h
    obtain ⟨_, _, _, h⟩ := bind_eq_done.mp h
    obtain ⟨_, _, _, h⟩ := bind_eq_done.mp h
    exact (setup_done h).1

/-! The busy-waits -/

theorem pollGetImage_run (code : Nat) :
    ∀ (l : List Nat) (s : Sys), pollGetImage code l s =
      if code ∈ l then
        .done () { s with
          getImageIn := remainingAfter code l
          trace := s.trace ++ (consumedThrough code l).map Event.getImage }
      else
        .blocked { s with getImageIn := (if l = [] then s.getImageIn else [])
                          trace := s.trace ++ l.map Event.getImage } := by
  intro l
  induction l with
  | nil => intro s; simp [pollGetImage]
  | cons r rest ih =>
    intro s
    by_cases hr : r = code
    · subst hr
      simp [pollGetImage, consumedThrough, remainingAfter, Sys.log]
    · have hr1 : ¬ code = r := fun h => hr h.symm
      simp only [pollGetImage, ih, consumedThrough, remainingAfter, Sys.log, ne_eq, hr,
        not_false_eq_true, if_true, List.mem_cons, hr1, false_or]
      by_cases hm : code ∈ rest
      · simp [hm]
      · simp [hm]

theorem whileGetImageNe_done (code : Nat) (s : Sys) (h : code ∈ s.getImageIn) :
    whileGetImageNe code s =
      .done () { s with
        getImageIn := remainingAfter code s.getImageIn
        trace := s.trace ++ (consumedThrough code s.getImageIn).map Event.getImage } := by
  simp [whileGetImageNe, pollGetImage_run, h]

theorem whileGetImageNe_blocked (code : Nat) (s : Sys) (h : code ∉ s.getImageIn) :
    whileGetImageNe code s =
      .blocked { s with
        getImageIn := []
        trace := s.trace ++ s.getImageIn.map Event.getImage } := by
  simp only [whileGetImageNe, pollGetImage_run, h, if_false]
  cases hg : s.getImageIn <;> simp

/-! Enrollment -/

theorem enroll_fail_image2Tz1 (s : Sys) (r1 : Nat) (t : List Nat)
    (hImg : FINGERPRINT_OK ∈ s.getImageIn) (hTz : s.image2TzIn = r1 :: t)
    (hr1 : r1 ≠ FINGERPRINT_OK) :
    enrollFingerprint s = .done ()
      { s with
        row0 := "A to use finger ".toList, row1 := blankRow, cursorCol := 16, cursorRow := 1
        getImageIn := remainingAfter FINGERPRINT_OK s.getImageIn
        image2TzIn := t
        trace := s.trace ++ enrollStartEvents ++ waitEvents FINGERPRINT_OK s.getImageIn ++
          [.image2Tz 1 r1] ++ enrollErrorEvents } := by
  simp [enrollFingerprint, enrollError, setupSystem, whileGetImageNe_done, finger_image2Tz,
    lcd_setCursor, lcd_print, lcd_clear, emit, Sys.log, hImg, hTz, hr1, enrollStartEvents,
    enrollErrorEvents, waitEvents]
  decide

theorem enroll_fail_image2Tz2 (s : Sys) (r2 : Nat) (t : List Nat)
    (hImg : FINGERPRINT_OK ∈ s.getImageIn)
    (hOff : FINGERPRINT_NOFINGER ∈ remainingAfter FINGERPRINT_OK s.getImageIn)
    (hImg2 : FINGERPRINT_OK ∈
      remainingAfter FINGERPRINT_NOFINGER (remainingAfter FINGERPRINT_OK s.getImageIn))
    (hTz : s.image2TzIn = FINGERPRINT_OK :: r2 :: t) (hr2 : r2 ≠ FINGERPRINT_OK) :
    enrollFingerprint s = .done ()
      { s with
        row0 := "A to use finger ".toList, row1 := blankRow, cursorCol := 16, cursorRow := 1
        getImageIn := remainingAfter FINGERPRINT_OK
          (remainingAfter FINGERPRINT_NOFINGER (remainingAfter FINGERPRINT_OK s.getImageIn))
        image2TzIn := t
        trace := s.trace ++ enrollStartEvents ++ waitEvents FINGERPRINT_OK s.getImageIn ++
          [.image2Tz 1 FINGERPRINT_OK] ++ enrollRemoveEvents ++
          waitEvents FINGERPRINT_NOFINGER (remainingAfter FINGERPRINT_OK s.getImageIn) ++
          enrollAgainEvents ++
          waitEvents FINGERPRINT_OK
            (remainingAfter FINGERPRINT_NOFINGER
              (remainingAfter FINGERPRINT_OK s.getImageIn)) ++
          [.image2Tz 2 r2] ++ enrollErrorEvents } := by
  simp [enrollFingerprint, enrollError, setupSystem, whileGetImageNe_done, finger_image2Tz,
    lcd_setCursor, lcd_print, lcd_clear, emit, Sys.log, hImg, hOff, hImg2, hTz, hr2,
    enrollStartEvents, enrollErrorEvents, enrollRemoveEvents, enrollAgainEvents, waitEvents]
  decide

theorem enroll_fail_createModel (s : Sys) (r3 : Nat) (t t3 : List Nat)
    (hImg : FINGERPRINT_OK ∈ s.getImageIn)
    (hOff : FINGERPRINT_NOFINGER ∈ remainingAfter FINGERPRINT_OK s.getImageIn)
    (hImg2 : FINGERPRINT_OK ∈
      remainingAfter FINGERPRINT_NOFINGER (remainingAfter FINGERPRINT_OK s.getImageIn))
    (hTz : s.image2TzIn = FINGERPRINT_OK :: FINGERPRINT_OK :: t)
    (hCm : s.createModelIn = r3 :: t3) (hr3 : r3 ≠ FINGERPRINT_OK) :
    enrollFingerprint s = .done ()
      { s with
        row0 := "A to use finger ".toList, row1 := blankRow, cursorCol := 16, cursorRow := 1
        getImageIn := remainingAfter FINGERPRINT_OK
          (remainingAfter FINGERPRINT_NOFINGER (remainingAfter FINGERPRINT_OK s.getImageIn))
        image2TzIn := t
        createModelIn := t3
        trace := s.trace ++ enrollStartEvents ++ waitEvents FINGERPRINT_OK s.getImageIn ++
          [.image2Tz 1 FINGERPRINT_OK] ++ enrollRemoveEvents ++
          waitEvents FINGERPRINT_NOFINGER (remainingAfter FINGERPRINT_OK s.getImageIn) ++
          enrollAgainEvents ++
          waitEvents FINGERPRINT_OK
            (remainingAfter FINGERPRINT_NOFINGER
              (remainingAfter FINGERPRINT_OK s.getImageIn)) ++
          [.image2Tz 2 FINGERPRINT_OK, .createModel r3] ++ enrollErrorEvents } := by
  simp [enrollFingerprint, enrollError, setupSystem, whileGetImageNe_done, finger_image2Tz,
    finger_createModel, lcd_setCursor, lcd_print, lcd_clear, emit, Sys.log, hImg, hOff,
    hImg2, hTz, hCm, hr3, enrollStartEvents, enrollErrorEvents, enrollRemoveEvents,
    enrollAgainEvents, waitEvents]
  decide

theorem enroll_fail_storeModel (s : Sys) (r4 : Nat) (t t3 t4 : List Nat)
    (hImg : FINGERPRINT_OK ∈ s.getImageIn)
    (hOff : FINGERPRINT_NOFINGER ∈ remainingAfter FINGERPRINT_OK s.getImageIn)
    (hImg2 : FINGERPRINT_OK ∈
      remainingAfter FINGERPRINT_NOFINGER (remainingAfter FINGERPRINT_OK s.getImageIn))
    (hTz : s.image2TzIn = FINGERPRINT_OK :: FINGERPRINT_OK :: t)
    (hCm : s.createModelIn = FINGERPRINT_OK :: t3)
    (hSm : s.storeModelIn = r4 :: t4) (hr4 : r4 ≠ FINGERPRINT_OK) :
    enrollFingerprint s = .done ()
      { s with
        row0 := "A to use finger ".toList, row1 := blankRow, cursorCol := 16, cursorRow := 1
        getImageIn := remainingAfter FINGERPRINT_OK
          (remainingAfter FINGERPRINT_NOFINGER (remainingAfter FINGERPRINT_OK s.getImageIn))
        image2TzIn := t
        createModelIn := t3
        storeModelIn := t4
        trace := s.trace ++ enrollStartEvents ++ waitEvents FINGERPRINT_OK s.getImageIn ++
          [.image2Tz 1 FINGERPRINT_OK] ++ enrollRemoveEvents ++
          waitEvents FINGERPRINT_NOFINGER (remainingAfter FINGERPRINT_OK s.getImageIn) ++
          enrollAgainEvents ++
          waitEvents FINGERPRINT_OK
            (remainingAfter FINGERPRINT_NOFINGER
              (remainingAfter FINGERPRINT_OK s.getImageIn)) ++
          [.image2Tz 2 FINGERPRINT_OK, .createModel FINGERPRINT_OK, .storeModel 1 r4] ++
          enrollErrorEvents } := by
  simp [enrollFingerprint, enrollError, setupSystem, whileGetImageNe_done, finger_image2Tz,
    finger_createModel, finger_storeModel, lcd_setCursor, lcd_print, lcd_clear, emit,
    Sys.log, hImg, hOff, hImg2, hTz, hCm, hSm, hr4, enrollStartEvents, enrollErrorEvents,
    enrollRemoveEvents, enrollAgainEvents, waitEvents]
  decide

theorem enroll_success (s : Sys) (t t3 t4 : List Nat)
    (hImg : FINGERPRINT_OK ∈ s.getImageIn)
    (hOff : FINGERPRINT_NOFINGER ∈ remainingAfter FINGERPRINT_OK s.getImageIn)
    (hImg2 : FINGERPRINT_OK ∈
      remainingAfter FINGERPRINT_NOFINGER (remainingAfter FINGERPRINT_OK s.getImageIn))
    (hTz : s.image2TzIn = FINGERPRINT_OK :: FINGERPRINT_OK :: t)
    (hCm : s.createModelIn = FINGERPRINT_OK :: t3)
    (hSm : s.storeModelIn = FINGERPRINT_OK :: t4) :
    enrollFingerprint s = .done ()
      { s with
        isLocked := true, relayPin := .HIGH, relayPin2 := .LOW
        row0 := blankRow, row1 := blankRow, cursorCol := 0, cursorRow := 0
        getImageIn := remainingAfter FINGERPRINT_OK
          (remainingAfter FINGERPRINT_NOFINGER (remainingAfter FINGERPRINT_OK s.getImageIn))
        image2TzIn := t
        createModelIn := t3
        storeModelIn := t4
        trace := s.trace ++ enrollStartEvents ++ waitEvents FINGERPRINT_OK s.getImageIn ++
          [.image2Tz 1 FINGERPRINT_OK] ++ enrollRemoveEvents ++
          waitEvents FINGERPRINT_NOFINGER (remainingAfter FINGERPRINT_OK s.getImageIn) ++
          enrollAgainEvents ++
          waitEvents FINGERPRINT_OK
            (remainingAfter FINGERPRINT_NOFINGER
              (remainingAfter FINGERPRINT_OK s.getImageIn)) ++
          [.image2Tz 2 FINGERPRINT_OK, .createModel FINGERPRINT_OK,
           .storeModel 1 FINGERPRINT_OK] ++ enrollLockEvents } := by
  simp [enrollFingerprint, lockSystem, setLocked, set_isLocked, digitalWrite,
    whileGetImageNe_done, finger_image2Tz,
    finger_createModel, finger_storeModel, lcd_setCursor, lcd_print, lcd_clear, emit,
    Sys.log, hImg, hOff, hImg2, hTz, hCm, hSm, enrollStartEvents, enrollLockEvents,
    enrollRemoveEvents, enrollAgainEvents, waitEvents]

theorem enroll_blocked_wait1 (s : Sys) (hImg : FINGERPRINT_OK ∉ s.getImageIn) :
    enrollFingerprint s = .blocked
      { s with
        row1 := writeAt 0 "                ".toList s.row1, cursorCol := 16, cursorRow := 1
        getImageIn := []
        trace := s.trace ++ enrollStartEvents ++ s.getImageIn.map Event.getImage } := by
  simp [enrollFingerprint, whileGetImageNe_blocked, lcd_setCursor, lcd_print, Sys.log,
    hImg, enrollStartEvents]
  decide

theorem enroll_blocked_wait2 (s : Sys) (t : List Nat)
    (hImg : FINGERPRINT_OK ∈ s.getImageIn)
    (hOff : FINGERPRINT_NOFINGER ∉ remainingAfter FINGERPRINT_OK s.getImageIn)
    (hTz : s.image2TzIn = FINGERPRINT_OK :: t) :
    enrollFingerprint s = .blocked
      { s with
        row0 := "Remove Finger   ".toList, row1 := blankRow, cursorCol := 16, cursorRow := 0
        getImageIn := []
        image2TzIn := t
        trace := s.trace ++ enrollStartEvents ++ waitEvents FINGERPRINT_OK s.getImageIn ++
          [.image2Tz 1 FINGERPRINT_OK] ++ enrollRemoveEvents ++
          (remainingAfter FINGERPRINT_OK s.getImageIn).map Event.getImage } := by
  simp [enrollFingerprint, whileGetImageNe_done, whileGetImageNe_blocked, finger_image2Tz,
    lcd_setCursor, lcd_print, lcd_clear, emit, Sys.log, hImg, hOff, hTz, enrollStartEvents,
    enrollRemoveEvents, waitEvents]
  decide

theorem enroll_blocked_wait3 (s : Sys) (t : List Nat)
    (hImg : FINGERPRINT_OK ∈ s.getImageIn)
    (hOff : FINGERPRINT_NOFINGER ∈ remainingAfter FINGERPRINT_OK s.getImageIn)
    (hImg2 : FINGERPRINT_OK ∉
      remainingAfter FINGERPRINT_NOFINGER (remainingAfter FINGERPRINT_OK s.getImageIn))
    (hTz : s.image2TzIn = FINGERPRINT_OK :: t) :
    enrollFingerprint s = .blocked
      { s with
        row0 := "Place Again     ".toList, row1 := blankRow, cursorCol := 16, cursorRow := 0
        getImageIn := []
        image2TzIn := t
        trace := s.trace ++ enrollStartEvents ++ waitEvents FINGERPRINT_OK s.getImageIn ++
          [.image2Tz 1 FINGERPRINT_OK] ++ enrollRemoveEvents ++
          waitEvents FINGERPRINT_NOFINGER (remainingAfter FINGERPRINT_OK s.getImageIn) ++
          enrollAgainEvents ++
          (remainingAfter FINGERPRINT_NOFINGER
            (remainingAfter FINGERPRINT_OK s.getImageIn)).map Event.getImage } := by
  simp [enrollFingerprint, whileGetImageNe_done, whileGetImageNe_blocked, finger_image2Tz,
    lcd_setCursor, lcd_print, lcd_clear, emit, Sys.log, hImg, hOff, hImg2, hTz,
    enrollStartEvents, enrollRemoveEvents, enrollAgainEvents, waitEvents]
  decide

theorem enroll_done_cases {s s1 : Sys} (h : enrollFingerprint s = .done () s1) :
    FINGERPRINT_OK ∈ s.getImageIn ∧
    ((∃ r1 t, s.image2TzIn = r1 :: t ∧ r1 ≠ FINGERPRINT_OK) ∨
     (FINGERPRINT_NOFINGER ∈ remainingAfter FINGERPRINT_OK s.getImageIn ∧
      FINGERPRINT_OK ∈
        remainingAfter FINGERPRINT_NOFINGER (remainingAfter FINGERPRINT_OK s.getImageIn) ∧
      ((∃ r2 t, s.image2TzIn = FINGERPRINT_OK :: r2 :: t ∧ r2 ≠ FINGERPRINT_OK) ∨
       (∃ t, s.image2TzIn = FINGERPRINT_OK :: FINGERPRINT_OK :: t ∧
         ((∃ r3 t3, s.createModelIn = r3 :: t3 ∧ r3 ≠ FINGERPRINT_OK) ∨
          (∃ t3, s.createModelIn = FINGERPRINT_OK :: t3 ∧
            ((∃ r4 t4, s.storeModelIn = r4 :: t4 ∧ r4 ≠ FINGERPRINT_OK) ∨
             (∃ t4, s.storeModelIn = FINGERPRINT_OK :: t4)))))))) := by
  by_cases hImg : FINGERPRINT_OK ∈ s.getImageIn
  swap
  · rw [enroll_blocked_wait1 s hImg] at h
    cases h
  refine ⟨hImg, ?_⟩
  cases hTz : s.image2TzIn with
  | nil =>
    simp [enrollFingerprint, whileGetImageNe_done, finger_image2Tz, lcd_setCursor, lcd_print,
      Sys.log, hImg, hTz] at h
  | cons r1 t =>
    by_cases hr1 : r1 = FINGERPRINT_OK
    swap
    · exact Or.inl ⟨r1, t, rfl, hr1⟩
    subst hr1
    right
    by_cases hOff : FINGERPRINT_NOFINGER ∈ remainingAfter FINGERPRINT_OK s.getImageIn
    swap
    · rw [enroll_blocked_wait2 s t hImg hOff hTz] at h
      cases h
    by_cases hImg2 : FINGERPRINT_OK ∈
        remainingAfter FINGERPRINT_NOFINGER (remainingAfter FINGERPRINT_OK s.getImageIn)
    swap
    · rw [enroll_blocked_wait3 s t hImg hOff hImg2 hTz] at h
      cases h
    refine ⟨hOff, hImg2, ?_⟩
    cases t with
    | nil =>
      simp [enrollFingerprint, whileGetImageNe_done, finger_image2Tz, lcd_setCursor,
        lcd_print, lcd_clear, emit, Sys.log, hImg, hOff, hImg2, hTz] at h
    | cons r2 t =>
      by_cases hr2 : r2 = FINGERPRINT_OK
      swap
      · exact Or.inl ⟨r2, t, rfl, hr2⟩
      subst hr2
      refine Or.inr ⟨t, rfl, ?_⟩
      cases hCm : s.createModelIn with
      | nil =>
        simp [enrollFingerprint, whileGetImageNe_done, finger_image2Tz, finger_createModel,
          lcd_setCursor, lcd_print, lcd_clear, emit, Sys.log, hImg, hOff, hImg2, hTz,
          hCm] at h
      | cons r3 t3 =>
        by_cases hr3 : r3 = FINGERPRINT_OK
        swap
        · exact Or.inl ⟨r3, t3, rfl, hr3⟩
        subst hr3
        refine Or.inr ⟨t3, rfl, ?_⟩
        cases hSm : s.storeModelIn with
        | nil =>
          simp [enrollFingerprint, whileGetImageNe_done, finger_image2Tz,
            finger_createModel, finger_storeModel, lcd_setCursor, lcd_print, lcd_clear,
            emit, Sys.log, hImg, hOff, hImg2, hTz, hCm, hSm] at h
        | cons r4 t4 =>
          by_cases hr4 : r4 = FINGERPRINT_OK
          · subst hr4
            exact Or.inr ⟨t4, rfl⟩
          · exact Or.inl ⟨r4, t4, rfl, hr4⟩

theorem consumed_remaining (code : Nat) :
    ∀ l : List Nat, code ∈ l →
      ∃ pre, l = pre ++ code :: remainingAfter code l ∧ code ∉ pre ∧
        consumedThrough code l = pre ++ [code] := by
  intro l
  induction l with
  | nil => intro h; simp at h
  | cons r rest ih =>
    intro h
    by_cases hr : r = code
    · subst hr
      exact ⟨[], by simp [remainingAfter], by simp, by simp [consumedThrough]⟩
    · have hmem : code ∈ rest := by
        rcases List.mem_cons.mp h with h1 | h1
        · exact absurd h1.symm hr
        · exact h1
      obtain ⟨pre, h1, h2, h3⟩ := ih hmem
      refine ⟨r :: pre, ?_, ?_, ?_⟩
      · simp only [remainingAfter, ne_eq, hr, not_false_eq_true, if_true, List.cons_append]
        exact congrArg _ h1
      · simp only [List.mem_cons, not_or]
        exact ⟨fun e => hr e.symm, h2⟩
      · simp only [consumedThrough, ne_eq, hr, not_false_eq_true, if_true, List.cons_append]
        exact congrArg _ h3

/-! The tail of an iteration -/

theorem isFingerprintMatched_done {s s1 : Sys} {b : Bool}
    (h : isFingerprintMatched s = .done b s1) :
    s1 = { s with
      getImageIn := s1.getImageIn, image2TzIn := s1.image2TzIn
      fingerFastSearchIn := s1.fingerFastSearchIn, fingerID := s1.fingerID
      trace := s1.trace } := by
  cases h1 : s.getImageIn with
  | nil => simp [isFingerprintMatched, finger_getImage, h1] at h
  | cons r1 l1 =>
    by_cases e1 : r1 = FINGERPRINT_OK
    swap
    · simp [isFingerprintMatched, finger_getImage, Sys.log, h1, e1] at h
      rw [← h.2]
    cases h2 : s.image2TzIn with
    | nil =>
      simp [isFingerprintMatched, finger_getImage, finger_image2Tz, Sys.log, h1, h2, e1] at h
    | cons r2 l2 =>
      by_cases e2 : r2 = FINGERPRINT_OK
      swap
      · simp [isFingerprintMatched, finger_getImage, finger_image2Tz, Sys.log, h1, h2, e1,
          e2] at h
        rw [← h.2]
      cases h3 : s.fingerFastSearchIn with
      | nil =>
        simp [isFingerprintMatched, finger_getImage, finger_image2Tz,
          finger_fingerFastSearch, Sys.log, h1, h2, h3, e1, e2] at h
      | cons p l3 =>
        obtain ⟨r3, fid⟩ := p
        by_cases e3 : r3 = FINGERPRINT_OK
        · by_cases e4 : fid = 1
          · simp [isFingerprintMatched, finger_getImage, finger_image2Tz,
              finger_fingerFastSearch, gets, Sys.log, h1, h2, h3, e1, e2, e3, e4] at h
            rw [← h.2]
          · simp [isFingerprintMatched, finger_getImage, finger_image2Tz,
              finger_fingerFastSearch, gets, Sys.log, h1, h2, h3, e1, e2, e3, e4] at h
            rw [← h.2]
        · simp [isFingerprintMatched, finger_getImage, finger_image2Tz,
            finger_fingerFastSearch, gets, Sys.log, h1, h2, h3, e1, e2, e3] at h
          rw [← h.2]

theorem loop_tail_idle_done {s s1 : Sys} (hD : s.waitingForFingerprintDeletion = false)
    (h : loop_tail s = .done () s1) :
    ∃ b sM, isFingerprintMatched s = .done b sM ∧
      (b = true → s.isLocked = true → unlockSystem sM = .done () s1) ∧
      (b = false ∨ s.isLocked = false → s1 = sM) := by
  simp only [loop_tail, bind_run, gets, hD, Bool.false_eq_true, if_false] at h
  cases hm : isFingerprintMatched s with
  | halted sM => rw [hm] at h; cases h
  | blocked sM => rw [hm] at h; cases h
  | done b sM =>
    rw [hm] at h
    have hL : sM.isLocked = s.isLocked := by rw [isFingerprintMatched_done hm]
    refine ⟨b, sM, rfl, ?_, ?_⟩
    · intro hb hl
      simpa [hb, hL, hl] using h
    · intro hor
      have : (b && sM.isLocked) = false := by
        rcases hor with hb | hl
        · simp [hb]
        · simp [hL, hl]
      simp [this] at h
      exact h.symm

theorem loop_limitSwitch_frame {s sL : Sys} (h : loop_limitSwitch s = .done () sL) :
    ∃ v rest, s.limitSwitchIn = v :: rest ∧
      sL = { s with relayPin2 := v, limitSwitchIn := rest, trace := sL.trace } := by
  cases hl : s.limitSwitchIn with
  | nil => simp [loop_limitSwitch, digitalRead_limitSwitchPin, hl] at h
  | cons v rest =>
    refine ⟨v, rest, rfl, ?_⟩
    cases v <;>
      simp [loop_limitSwitch, digitalRead_limitSwitchPin, digitalWrite, emit, Sys.log, hl] at h <;>
      subst h <;> rfl

theorem loop_keypad_enroll_success (s : Sys) (krest : List Char) (t t3 t4 : List Nat)
    (hN : isNormal s) (hk : s.keypadIn = 'A' :: krest)
    (hImg : FINGERPRINT_OK ∈ s.getImageIn)
    (hOff : FINGERPRINT_NOFINGER ∈ remainingAfter FINGERPRINT_OK s.getImageIn)
    (hImg2 : FINGERPRINT_OK ∈
      remainingAfter FINGERPRINT_NOFINGER (remainingAfter FINGERPRINT_OK s.getImageIn))
    (hTz : s.image2TzIn = FINGERPRINT_OK :: FINGERPRINT_OK :: t)
    (hCm : s.createModelIn = FINGERPRINT_OK :: t3)
    (hSm : s.storeModelIn = FINGERPRINT_OK :: t4) :
    ∃ sK, loop_keypad s = .done () sK ∧ sK.isLocked = true ∧ sK.relayPin = .HIGH ∧
      sK.enteringEmergencyPassword = false ∧ sK.waitingForFingerprintDeletion = false := by
  have hne : ('A' : Char) ≠ NO_KEY := by decide
  have hE : ¬ (s.enteringEmergencyPassword = true) := by simp [hN.1]
  have hD : ¬ (s.waitingForFingerprintDeletion = true) := by simp [hN.2]
  simp only [loop_keypad, bind_run, keypad_getKey, hk]
  rw [if_pos hne, loop_dispatch_run]
  simp only [Sys.log]
  rw [if_neg hE, if_neg hD]
  simp only [loop_switch, if_true, bind_run, lcd_setCursor, lcd_print, Sys.log,
    one_ne_zero, if_false]
  rw [enroll_success _ t t3 t4]
  · exact ⟨_, rfl, rfl, rfl, hN.1, hN.2⟩
  · exact hImg
  · exact hOff
  · exact hImg2
  · exact hTz
  · exact hCm
  · exact hSm

/-! Deletion never stays pending -/

theorem post_bind {α β : Type} {Q : Sys → Prop} {m : M α} {f : α → M β}
    (hf : ∀ a, Post Q (f a)) : Post Q (m >>= f) := by
  intro s b s1 h
  obtain ⟨a, sa, _, h2⟩ := bind_eq_done.mp h
  exact hf a sa b s1 h2

theorem post_clear_deletion :
    Post (fun s => s.waitingForFingerprintDeletion = false)
      (set_waitingForFingerprintDeletion false) := by
  intro s a s1 h
  simp only [set_waitingForFingerprintDeletion, Run.done.injEq, true_and] at h
  rw [← h]

theorem handleFingerprintDeletion_clears :
    Post (fun s => s.waitingForFingerprintDeletion = false) handleFingerprintDeletion := by
  unfold handleFingerprintDeletion deletionError
  repeat' first
    | with_reducible exact post_clear_deletion
    | with_reducible apply post_bind | split | (intro _)

theorem unlockSystem_keepsFlags : Sat keepsFlags unlockSystem :=
  sat_unlockSystem frame_keepsFlags (setLocked_keepsFlags false)

theorem loop_ends_deletion_clear {s s1 : Sys} (h : loop s = .done () s1) :
    s1.waitingForFingerprintDeletion = false := by
  obtain ⟨sK, sL, _, hL, hT⟩ := loop_eq_done h
  by_cases hp : sL.waitingForFingerprintDeletion = true
  · have hT1 : handleFingerprintDeletion sL = .done () s1 := by
      simpa [loop_tail, gets, hp] using hT
    exact handleFingerprintDeletion_clears sL () s1 hT1
  · have hp1 : sL.waitingForFingerprintDeletion = false := by simpa using hp
    obtain ⟨b, sM, hM, hyes, hno⟩ := loop_tail_idle_done hp1 hT
    have hMd : sM.waitingForFingerprintDeletion = false := by
      rw [isFingerprintMatched_done hM]; exact hp1
    by_cases hu : b = true ∧ sL.isLocked = true
    · have hk := unlockSystem_keepsFlags sM
      rw [hyes hu.1 hu.2] at hk
      exact hk.2.trans hMd
    · have : b = false ∨ sL.isLocked = false := by
        cases b <;> cases hl : sL.isLocked <;> simp [hl] at hu ⊢
      rw [hno this]
      exact hMd

theorem loop_dispatch_eq_active (key : Char) (s : Sys)
    (hD : s.waitingForFingerprintDeletion = false) :
    loop_dispatch key s = loop_dispatch_active key s := by
  cases hE : s.enteringEmergencyPassword <;>
    simp [loop_dispatch, loop_dispatch_active, lcd_clear, emit, gets, Sys.log, hE, hD]

/-! Enrollment under the door interlock -/

theorem enroll_done_unlocked {s s1 : Sys} (h : enrollFingerprint s = .done () s1)
    (hfail : ¬ enrollmentSucceeds s) : s1.isLocked = s.isLocked := by
  obtain ⟨hImg, hc⟩ := enroll_done_cases h
  rcases hc with ⟨r1, t, hTz, hr1⟩ | ⟨hOff, hImg2, hc⟩
  · rw [enroll_fail_image2Tz1 s r1 t hImg hTz hr1] at h
    cases h
    rfl
  rcases hc with ⟨r2, t, hTz, hr2⟩ | ⟨t, hTz, hc⟩
  · rw [enroll_fail_image2Tz2 s r2 t hImg hOff hImg2 hTz hr2] at h
    cases h
    rfl
  rcases hc with ⟨r3, t3, hCm, hr3⟩ | ⟨t3, hCm, hc⟩
  · rw [enroll_fail_createModel s r3 t t3 hImg hOff hImg2 hTz hCm hr3] at h
    cases h
    rfl
  rcases hc with ⟨r4, t4, hSm, hr4⟩ | ⟨t4, hSm⟩
  · rw [enroll_fail_storeModel s r4 t t3 t4 hImg hOff hImg2 hTz hCm hSm hr4] at h
    cases h
    rfl
  · exact absurd ⟨hImg, hOff, hImg2, ⟨t, hTz⟩, ⟨t3, hCm⟩, ⟨t4, hSm⟩⟩ hfail

theorem loop_keypad_enroll_failed (s sK : Sys) (krest : List Char) (hN : isNormal s)
    (hk : s.keypadIn = 'A' :: krest) (hfail : ¬ enrollmentSucceeds s)
    (hK : loop_keypad s = .done () sK) : sK.isLocked = s.isLocked := by
  have hne : ('A' : Char) ≠ NO_KEY := by decide
  have hE : ¬ (s.enteringEmergencyPassword = true) := by simp [hN.1]
  have hD : ¬ (s.waitingForFingerprintDeletion = true) := by simp [hN.2]
  simp only [loop_keypad, bind_run, keypad_getKey, hk] at hK
  rw [if_pos hne, loop_dispatch_run] at hK
  simp only [Sys.log] at hK
  rw [if_neg hE, if_neg hD] at hK
  simp only [loop_switch, if_true, bind_run, lcd_setCursor, lcd_print, Sys.log,
    one_ne_zero, if_false] at hK
  have h := enroll_done_unlocked hK hfail
  exact h

theorem loop_keypad_enroll_locks (s : Sys) (hN : isNormal s)
    (hk : s.keypadIn.head? = some 'A') (hok : enrollmentSucceeds s) :
    ∃ sK, loop_keypad s = .done () sK ∧ sK.isLocked = true := by
  obtain ⟨hImg, hOff, hImg2, ⟨t, hTz⟩, ⟨t3, hCm⟩, ⟨t4, hSm⟩⟩ := hok
  cases hl : s.keypadIn with
  | nil => rw [hl] at hk; simp at hk
  | cons k krest =>
    rw [hl] at hk
    simp only [List.head?_cons, Option.some.injEq] at hk
    subst hk
    obtain ⟨sK, h1, h2, _⟩ :=
      loop_keypad_enroll_success s krest t t3 t4 hN hl hImg hOff hImg2 hTz hCm hSm
    exact ⟨sK, h1, h2⟩

/-! What is printed on the display -/

theorem replay_append (d : Display) (a b : List Event) :
    d.replay (a ++ b) = (d.replay a).replay b := by
  simp [Display.replay, List.foldl_append]

theorem printsPlaced_append (a b : List Event) :
    ∀ d : Display, printsPlaced d (a ++ b) = (printsPlaced d a && printsPlaced (d.replay a) b) := by
  induction a with
  | nil => intro d; simp [printsPlaced, Display.replay]
  | cons e rest ih =>
    intro d
    have hr : d.replay (e :: rest) = (d.step e).replay rest := rfl
    rw [List.cons_append, printsPlaced, printsPlaced, ih, hr, Bool.and_assoc]

theorem placedRun_refl (s s1 : Sys) (h : s1.trace = s.trace) (hd : s1.display = s.display) :
    placedRun s s1 :=
  ⟨[], by simp [h], by simp [hd, Display.replay], rfl⟩

theorem placedRun_log (s s1 : Sys) (e : Event) (h : s1.trace = s.trace ++ [e])
    (hd : s1.display = s.display.step e) (he : eventPlaced s.display e = true) :
    placedRun s s1 :=
  ⟨[e], h, by simp [hd, Display.replay], by simp [printsPlaced, he]⟩

theorem placedRun_trans (a b c : Sys) (h1 : placedRun a b) (h2 : placedRun b c) :
    placedRun a c := by
  obtain ⟨n1, e1, d1, p1⟩ := h1
  obtain ⟨n2, e2, d2, p2⟩ := h2
  refine ⟨n1 ++ n2, by rw [e2, e1, List.append_assoc], ?_, ?_⟩
  · rw [d2, d1, replay_append]
  · rw [printsPlaced_append, p1, ← d1, p2]
    rfl

theorem pr_bind {α β : Type} {m : M α} {f : α → M β} (hm : Sat placedRun m)
    (hf : ∀ a, Sat placedRun (f a)) : Sat placedRun (m >>= f) := by
  intro s
  have h1 := hm s
  rw [bind_run]
  cases hms : m s with
  | done a s1 =>
    rw [hms] at h1
    exact placedRun_trans _ _ _ h1 (hf a s1)
  | halted s1 => rw [hms] at h1; exact h1
  | blocked s1 => rw [hms] at h1; exact h1

theorem pr_pure {α : Type} (a : α) : Sat placedRun (pure a : M α) :=
  fun s => placedRun_refl s _ rfl rfl

theorem pr_gets {α : Type} (f : Sys → α) : Sat placedRun (gets f) :=
  fun s => placedRun_refl s _ rfl rfl

theorem pr_halt {α : Type} : Sat placedRun (haltForever : M α) :=
  fun s => placedRun_refl s _ rfl rfl

theorem pr_set_isLocked (b : Bool) : Sat placedRun (set_isLocked b) :=
  fun s => placedRun_refl s _ rfl rfl

theorem pr_set_emergency (b : Bool) : Sat placedRun (set_enteringEmergencyPassword b) :=
  fun s => placedRun_refl s _ rfl rfl

theorem pr_set_deletion (b : Bool) :
    Sat placedRun (set_waitingForFingerprintDeletion b) :=
  fun s => placedRun_refl s _ rfl rfl

theorem pr_delay (ms : Nat) : Sat placedRun (delay ms) :=
  fun s => placedRun_log s _ (.delay ms) rfl rfl rfl

theorem pr_Serial_print (t : String) : Sat placedRun (Serial_print t) :=
  fun s => placedRun_log s _ (.serialPrint t) rfl rfl rfl

theorem pr_Serial_println (t : String) : Sat placedRun (Serial_println t) :=
  fun s => placedRun_log s _ (.serialPrintln t) rfl rfl rfl

theorem pr_clear : Sat placedRun lcd_clear :=
  fun s => placedRun_log s _ .lcdClear rfl rfl rfl

theorem pr_setCursor (c r : Nat) : Sat placedRun (lcd_setCursor c r) :=
  fun s => placedRun_log s _ (.lcdSetCursor c r) rfl rfl rfl

theorem pr_print (t : String) (ht : t.length = lcdCols ∨ t = "delete fingerprint") :
    Sat placedRun (lcd_print t) := by
  intro s
  refine placedRun_log s _ (.lcdPrint t) ?_ ?_ ?_
  · simp only [lcd_print]
    split_ifs <;> rfl
  · simp only [lcd_print, Display.step, Sys.display, Sys.log, Run.state]
    split_ifs <;> rfl
  · simp only [eventPlaced, printPlaced, decide_eq_true_eq]
    rcases ht with h | h
    · exact Or.inl h
    · exact Or.inr (Or.inl h)

theorem pr_digitalWrite (pin : Pin) (v : Level) : Sat placedRun (digitalWrite pin v) := by
  intro s
  refine placedRun_log s _ (.digitalWrite pin v) ?_ ?_ rfl
  · cases pin <;> rfl
  · cases pin <;> rfl

theorem pr_readLimit : Sat placedRun digitalRead_limitSwitchPin := by
  intro s
  unfold digitalRead_limitSwitchPin
  split
  · exact placedRun_refl s _ rfl rfl
  · exact placedRun_log s _ _ rfl rfl rfl

theorem pr_getKey : Sat placedRun keypad_getKey := by
  intro s
  unfold keypad_getKey
  split
  · exact placedRun_refl s _ rfl rfl
  · exact placedRun_log s _ _ rfl rfl rfl

theorem pr_getImage : Sat placedRun finger_getImage := by
  intro s
  unfold finger_getImage
  split
  · exact placedRun_refl s _ rfl rfl
  · exact placedRun_log s _ _ rfl rfl rfl

theorem pr_image2Tz (slot : Nat) : Sat placedRun (finger_image2Tz slot) := by
  intro s
  unfold finger_image2Tz
  split
  · exact placedRun_refl s _ rfl rfl
  · exact placedRun_log s _ _ rfl rfl rfl

theorem pr_createModel : Sat placedRun finger_createModel := by
  intro s
  unfold finger_createModel
  split
  · exact placedRun_refl s _ rfl rfl
  · exact placedRun_log s _ _ rfl rfl rfl

theorem pr_storeModel (id : Nat) : Sat placedRun (finger_storeModel id) := by
  intro s
  unfold finger_storeModel
  split
  · exact placedRun_refl s _ rfl rfl
  · exact placedRun_log s _ _ rfl rfl rfl

theorem pr_deleteModel (id : Nat) : Sat placedRun (finger_deleteModel id) := by
  intro s
  unfold finger_deleteModel
  split
  · exact placedRun_refl s _ rfl rfl
  · exact placedRun_log s _ _ rfl rfl rfl

theorem pr_fingerFastSearch : Sat placedRun finger_fingerFastSearch := by
  intro s
  unfold finger_fingerFastSearch
  split
  · exact placedRun_refl s _ rfl rfl
  · exact placedRun_log s _ _ rfl rfl rfl

theorem replay_getImage (d : Display) (l : List Nat) :
    d.replay (l.map Event.getImage) = d := by
  induction l with
  | nil => rfl
  | cons r rest ih => simpa [Display.replay, Display.step] using ih

theorem printsPlaced_getImage (d : Display) (l : List Nat) :
    printsPlaced d (l.map Event.getImage) = true := by
  induction l with
  | nil => rfl
  | cons r rest ih => simpa [printsPlaced, eventPlaced, Display.step] using ih

theorem pr_whileGetImageNe (code : Nat) : Sat placedRun (whileGetImageNe code) := by
  intro s
  rw [whileGetImageNe, pollGetImage_run]
  split
  · exact ⟨_, rfl, (replay_getImage _ _).symm, printsPlaced_getImage _ _⟩
  · exact ⟨_, rfl, (replay_getImage _ _).symm, printsPlaced_getImage _ _⟩

theorem pr_setupSystem : Sat placedRun setupSystem := by
  unfold setupSystem
  repeat' first
    | (show _ ∨ _; decide)
    | with_reducible apply pr_print
    | with_reducible exact pr_setCursor _ _ | with_reducible exact pr_clear
    | with_reducible exact pr_delay _ | with_reducible exact pr_Serial_println _
    | with_reducible exact pr_Serial_print _
    | with_reducible exact pr_gets _ | with_reducible exact pr_pure _
    | with_reducible apply pr_bind | split | (intro _)

theorem pr_setLocked (b : Bool) : Sat placedRun (setLocked b) := by
  unfold setLocked
  repeat' first
    | (show _ ∨ _; decide)
    | with_reducible apply pr_print
    | with_reducible exact pr_setCursor _ _ | with_reducible exact pr_clear
    | with_reducible exact pr_delay _ | with_reducible exact pr_Serial_println _
    | with_reducible exact pr_Serial_print _
    | with_reducible exact pr_gets _ | with_reducible exact pr_pure _
    | with_reducible exact pr_set_isLocked _
    | with_reducible exact pr_digitalWrite _ _
    | with_reducible apply pr_bind | split | (intro _)

theorem pr_lockSystem : Sat placedRun lockSystem := by
  unfold lockSystem
  repeat' first
    | with_reducible exact pr_setCursor _ _ | with_reducible exact pr_clear
    | with_reducible exact pr_delay _ | with_reducible exact pr_Serial_println _
    | with_reducible exact pr_Serial_print _
    | with_reducible exact pr_gets _ | with_reducible exact pr_pure _
    | with_reducible exact pr_setLocked _
    | with_reducible exact pr_digitalWrite _ _
    | with_reducible apply pr_bind | split | (intro _)

theorem pr_unlockSystem : Sat placedRun unlockSystem := by
  unfold unlockSystem
  repeat' first
    | (show _ ∨ _; decide)
    | with_reducible apply pr_print
    | with_reducible exact pr_setCursor _ _ | with_reducible exact pr_clear
    | with_reducible exact pr_delay _ | with_reducible exact pr_Serial_println _
    | with_reducible exact pr_Serial_print _
    | with_reducible exact pr_gets _ | with_reducible exact pr_pure _
    | with_reducible exact pr_setLocked _
    | with_reducible apply pr_bind | split | (intro _)

theorem pr_enrollFingerprint : Sat placedRun enrollFingerprint := by
  unfold enrollFingerprint enrollError
  repeat' first
    | (show _ ∨ _; decide)
    | with_reducible apply pr_print
    | with_reducible exact pr_setCursor _ _ | with_reducible exact pr_clear
    | with_reducible exact pr_delay _ | with_reducible exact pr_Serial_println _
    | with_reducible exact pr_Serial_print _
    | with_reducible exact pr_gets _ | with_reducible exact pr_pure _
    | with_reducible exact pr_whileGetImageNe _
    | with_reducible exact pr_image2Tz _
    | with_reducible exact pr_createModel
    | with_reducible exact pr_storeModel _
    | with_reducible exact pr_setupSystem
    | with_reducible exact pr_lockSystem
    | with_reducible apply pr_bind | split | (intro _)

theorem pr_handleFingerprintDeletion : Sat placedRun handleFingerprintDeletion := by
  unfold handleFingerprintDeletion deletionError deleteFingerprint
  repeat' first
    | (show _ ∨ _; decide)
    | with_reducible apply pr_print
    | with_reducible exact pr_setCursor _ _ | with_reducible exact pr_clear
    | with_reducible exact pr_delay _ | with_reducible exact pr_Serial_println _
    | with_reducible exact pr_Serial_print _
    | with_reducible exact pr_gets _ | with_reducible exact pr_pure _
    | with_reducible exact pr_whileGetImageNe _
    | with_reducible exact pr_image2Tz _
    | with_reducible exact pr_fingerFastSearch
    | with_reducible exact pr_deleteModel _
    | with_reducible exact pr_set_deletion _
    | with_reducible exact pr_setupSystem
    | with_reducible exact pr_unlockSystem
    | with_reducible apply pr_bind | split | (intro _)

theorem pr_isFingerprintMatched : Sat placedRun isFingerprintMatched := by
  unfold isFingerprintMatched
  repeat' first
    | with_reducible exact pr_setCursor _ _ | with_reducible exact pr_clear
    | with_reducible exact pr_delay _ | with_reducible exact pr_Serial_println _
    | with_reducible exact pr_Serial_print _
    | with_reducible exact pr_gets _ | with_reducible exact pr_pure _
    | with_reducible exact pr_getImage
    | with_reducible exact pr_image2Tz _
    | with_reducible exact pr_fingerFastSearch
    | with_reducible apply pr_bind | split | (intro _)

theorem pr_setup : Sat placedRun setup := by
  intro s
  cases hv : s.verifyPasswordIn with
  | nil =>
    refine ⟨[.serialBegin 9600, .lcdInit, .lcdBacklight, .lcdSetCursor 0 0,
      .lcdPrint "Welcome", .lcdSetCursor 0 1, .lcdPrint "System Load",
      .pinMode .relayPin .OUTPUT, .pinMode .relayPin2 .OUTPUT,
      .pinMode .buzzerPin .OUTPUT, .pinMode .limitSwitchPin .INPUT_PULLUP,
      .digitalWrite .relayPin .HIGH, .lcdSetCursor 0 0, .lcdPrint "Locked          ",
      .lcdSetCursor 0 1, .lcdPrint "                ",
      .softSerialBegin 57600, .sensorBegin 57600, .delay 1000,
      .serialPrintln "Initializing fingerprint sensor...", .lcdSetCursor 0 1], ?_, ?_, ?_⟩
    · simp [setup, setLocked, set_isLocked, digitalWrite, lcd_setCursor, lcd_print,
        lcd_clear, lcd_init, emit, Sys.log, finger_verifyPassword, Run.state, hv]
    · simp [setup, setLocked, set_isLocked, digitalWrite, lcd_setCursor, lcd_print,
        lcd_clear, lcd_init, emit, Sys.log, finger_verifyPassword, Run.state, hv,
        Sys.display, Display.replay, Display.step]
    · simp [printsPlaced, eventPlaced, Display.step]
      decide
  | cons ok rest =>
    cases ok
    · refine ⟨[.serialBegin 9600, .lcdInit, .lcdBacklight, .lcdSetCursor 0 0,
        .lcdPrint "Welcome", .lcdSetCursor 0 1, .lcdPrint "System Load",
        .pinMode .relayPin .OUTPUT, .pinMode .relayPin2 .OUTPUT,
        .pinMode .buzzerPin .OUTPUT, .pinMode .limitSwitchPin .INPUT_PULLUP,
        .digitalWrite .relayPin .HIGH, .lcdSetCursor 0 0, .lcdPrint "Locked          ",
        .lcdSetCursor 0 1, .lcdPrint "                ",
        .softSerialBegin 57600, .sensorBegin 57600, .delay 1000,
        .serialPrintln "Initializing fingerprint sensor...", .lcdSetCursor 0 1,
        .verifyPassword false, .lcdPrint "Finger Err",
        .serialPrintln "Error: Unable to initialize fingerprint sensor."], ?_, ?_, ?_⟩
      · simp [setup, setLocked, set_isLocked, digitalWrite, lcd_setCursor, lcd_print,
          lcd_clear, lcd_init, emit, Sys.log, finger_verifyPassword, haltForever,
          Run.state, hv]
      · simp [setup, setLocked, set_isLocked, digitalWrite, lcd_setCursor, lcd_print,
          lcd_clear, lcd_init, emit, Sys.log, finger_verifyPassword, haltForever,
          Run.state, hv, Sys.display, Display.replay, Display.step]
      · simp [printsPlaced, eventPlaced, Display.step]
        decide
    · refine ⟨[.serialBegin 9600, .lcdInit, .lcdBacklight, .lcdSetCursor 0 0,
        .lcdPrint "Welcome", .lcdSetCursor 0 1, .lcdPrint "System Load",
        .pinMode .relayPin .OUTPUT, .pinMode .relayPin2 .OUTPUT,
        .pinMode .buzzerPin .OUTPUT, .pinMode .limitSwitchPin .INPUT_PULLUP,
        .digitalWrite .relayPin .HIGH, .lcdSetCursor 0 0, .lcdPrint "Locked          ",
        .lcdSetCursor 0 1, .lcdPrint "                ",
        .softSerialBegin 57600, .sensorBegin 57600, .delay 1000,
        .serialPrintln "Initializing fingerprint sensor...", .lcdSetCursor 0 1,
        .verifyPassword true, .lcdPrint "System Ok   ",
        .serialPrintln "Fingerprint sensor initialized successfully.", .delay 2000,
        .lcdClear, .lcdSetCursor 0 0, .lcdPrint "A to use finger ", .lcdSetCursor 0 1,
        .lcdPrint "                "], ?_, ?_, ?_⟩
      · simp [setup, setLocked, set_isLocked, digitalWrite, lcd_setCursor, lcd_print,
          lcd_clear, lcd_init, emit, Sys.log, finger_verifyPassword, setupSystem,
          Run.state, hv]
      · simp [setup, setLocked, set_isLocked, digitalWrite, lcd_setCursor, lcd_print,
          lcd_clear, lcd_init, emit, Sys.log, finger_verifyPassword, setupSystem,
          Run.state, hv, Sys.display, Display.replay, Display.step]
      · simp [printsPlaced, eventPlaced, Display.step]
        decide

theorem pr_resetSystem : Sat placedRun resetSystem := by
  unfold resetSystem
  repeat' first
    | with_reducible exact pr_setCursor _ _ | with_reducible exact pr_clear
    | with_reducible exact pr_delay _ | with_reducible exact pr_Serial_println _
    | with_reducible exact pr_Serial_print _
    | with_reducible exact pr_gets _ | with_reducible exact pr_pure _
    | with_reducible exact pr_setup
    | with_reducible apply pr_bind | split | (intro _)

theorem pr_handleEmergencyUnlock (key : Char) : Sat placedRun (handleEmergencyUnlock key) := by
  unfold handleEmergencyUnlock
  repeat' first
    | (show _ ∨ _; decide)
    | with_reducible apply pr_print
    | with_reducible exact pr_setCursor _ _ | with_reducible exact pr_clear
    | with_reducible exact pr_delay _ | with_reducible exact pr_Serial_println _
    | with_reducible exact pr_Serial_print _
    | with_reducible exact pr_gets _ | with_reducible exact pr_pure _
    | with_reducible exact pr_unlockSystem
    | with_reducible exact pr_setupSystem
    | with_reducible exact pr_set_emergency _
    | with_reducible apply pr_bind | split | (intro _)

theorem pr_loop_switch (key : Char) : Sat placedRun (loop_switch key) := by
  unfold loop_switch
  repeat' first
    | (show _ ∨ _; decide)
    | with_reducible apply pr_print
    | with_reducible exact pr_setCursor _ _ | with_reducible exact pr_clear
    | with_reducible exact pr_delay _ | with_reducible exact pr_Serial_println _
    | with_reducible exact pr_Serial_print _
    | with_reducible exact pr_gets _ | with_reducible exact pr_pure _
    | with_reducible exact pr_enrollFingerprint
    | with_reducible exact pr_lockSystem
    | with_reducible exact pr_resetSystem
    | with_reducible exact pr_setupSystem
    | with_reducible exact pr_readLimit
    | with_reducible exact pr_digitalWrite _ _
    | with_reducible exact pr_set_emergency _
    | with_reducible exact pr_set_deletion _
    | with_reducible apply pr_bind | split | (intro _)

theorem pr_loop_dispatch (key : Char) : Sat placedRun (loop_dispatch key) := by
  unfold loop_dispatch
  repeat' first
    | with_reducible exact pr_setCursor _ _ | with_reducible exact pr_clear
    | with_reducible exact pr_delay _ | with_reducible exact pr_Serial_println _
    | with_reducible exact pr_Serial_print _
    | with_reducible exact pr_gets _ | with_reducible exact pr_pure _
    | with_reducible exact pr_loop_switch _
    | with_reducible exact pr_handleEmergencyUnlock _
    | with_reducible apply pr_bind | split | (intro _)

theorem pr_loop_keypad : Sat placedRun loop_keypad := by
  unfold loop_keypad
  repeat' first
    | with_reducible exact pr_setCursor _ _ | with_reducible exact pr_clear
    | with_reducible exact pr_delay _ | with_reducible exact pr_Serial_println _
    | with_reducible exact pr_Serial_print _
    | with_reducible exact pr_gets _ | with_reducible exact pr_pure _
    | with_reducible exact pr_loop_dispatch _
    | with_reducible exact pr_getKey
    | with_reducible apply pr_bind | split | (intro _)

theorem pr_loop_limitSwitch : Sat placedRun loop_limitSwitch := by
  unfold loop_limitSwitch
  repeat' first
    | with_reducible exact pr_setCursor _ _ | with_reducible exact pr_clear
    | with_reducible exact pr_delay _ | with_reducible exact pr_Serial_println _
    | with_reducible exact pr_Serial_print _
    | with_reducible exact pr_gets _ | with_reducible exact pr_pure _
    | with_reducible exact pr_readLimit
    | with_reducible exact pr_digitalWrite _ _
    | with_reducible apply pr_bind | split | (intro _)

theorem pr_loop_tail : Sat placedRun loop_tail := by
  unfold loop_tail
  repeat' first
    | with_reducible exact pr_setCursor _ _ | with_reducible exact pr_clear
    | with_reducible exact pr_delay _ | with_reducible exact pr_Serial_println _
    | with_reducible exact pr_Serial_print _
    | with_reducible exact pr_gets _ | with_reducible exact pr_pure _
    | with_reducible exact pr_handleFingerprintDeletion
    | with_reducible exact pr_isFingerprintMatched
    | with_reducible exact pr_unlockSystem
    | with_reducible apply pr_bind | split | (intro _)

theorem pr_loop : Sat placedRun loop := by
  unfold loop
  repeat' first
    | with_reducible exact pr_setCursor _ _ | with_reducible exact pr_clear
    | with_reducible exact pr_delay _ | with_reducible exact pr_Serial_println _
    | with_reducible exact pr_Serial_print _
    | with_reducible exact pr_gets _ | with_reducible exact pr_pure _
    | with_reducible exact pr_loop_keypad
    | with_reducible exact pr_loop_limitSwitch
    | with_reducible exact pr_loop_tail
    | with_reducible apply pr_bind | split | (intro _)

theorem printsPlaced_at (d : Display) (pre post : List Event) (t : String)
    (h : printsPlaced d (pre ++ Event.lcdPrint t :: post) = true) :
    printPlaced (d.replay pre) t := by
  rw [printsPlaced_append, printsPlaced] at h
  simp only [Bool.and_eq_true, eventPlaced, decide_eq_true_eq] at h
  exact h.2.1

/-! Claims -/

/-- Claim C1, as stated, fails on both paths that lock without consulting the limit
switch.  After boot and an emergency unlock (keys 'B', '5') the system is unlocked; with the
door open at every read, key '#' (reset) ends the next iteration locked, and so does key
'A' followed by a successful enrollment. -/
theorem C1_counterexample :
    (ReachAfterBoot (sketch 2 c1BootReset).state ∧
      (sketch 2 c1BootReset).state.isLocked = false ∧
      (∀ v ∈ (sketch 2 c1BootReset).state.limitSwitchIn, v = Level.HIGH) ∧
      (sketch 2 c1BootReset).state.keypadIn = ['#'] ∧
      ∃ s1, loop (sketch 2 c1BootReset).state = .done () s1 ∧ s1.isLocked = true) ∧
    (ReachAfterBoot (sketch 2 c1BootEnroll).state ∧
      (sketch 2 c1BootEnroll).state.isLocked = false ∧
      (∀ v ∈ (sketch 2 c1BootEnroll).state.limitSwitchIn, v = Level.HIGH) ∧
      (sketch 2 c1BootEnroll).state.keypadIn = ['A'] ∧
      ∃ s1, loop (sketch 2 c1BootEnroll).state = .done () s1 ∧ s1.isLocked = true) := by
  refine ⟨⟨?_, by decide, by decide, by decide, _, rfl, by decide⟩,
    ⟨?_, by decide, by decide, by decide, _, rfl, by decide⟩⟩
  · exact ReachAfterBoot.step (sketch 1 c1BootReset).state _
      (ReachAfterBoot.step (sketch 0 c1BootReset).state _
        (ReachAfterBoot.boot c1BootReset _ (by decide)) (by decide)) (by decide)
  · exact ReachAfterBoot.step (sketch 1 c1BootEnroll).state _
      (ReachAfterBoot.step (sketch 0 c1BootEnroll).state _
        (ReachAfterBoot.boot c1BootEnroll _ (by decide)) (by decide)) (by decide)

/-- Claim C1, amended: take a `loop()` iteration that starts with `isLocked = false` and
in which every read of `limitSwitchPin` returned HIGH (door open).  It ends with
`isLocked = false`, unless in Normal mode it dispatches key '#', or key 'A' with an
enrollment that succeeds (finger present, absent, present again, and `image2Tz(1)`,
`image2Tz(2)`, `createModel()`, `storeModel(1)` all `FINGERPRINT_OK`).  In these two cases
the keypad part of the iteration ends with `isLocked = true`: the reset re-runs `setup()`,
which forces the locked state, and the successful enrollment ends in `lockSystem()`. -/
theorem C1_door_open_stays_unlocked (s s1 : Sys) (reads : List Level)
    (hloop : loop s = .done () s1) (hU : s.isLocked = false)
    (hreads : s.limitSwitchIn = reads ++ s1.limitSwitchIn)
    (hopen : ∀ v ∈ reads, v = Level.HIGH) :
    (¬ (isNormal s ∧ s.keypadIn.head? = some '#') →
      ¬ (isNormal s ∧ s.keypadIn.head? = some 'A' ∧ enrollmentSucceeds s) →
      s1.isLocked = false) ∧
    (isNormal s ∧ s.keypadIn.head? = some '#' →
      ∃ sK, loop_keypad s = .done () sK ∧ sK.isLocked = true) ∧
    (isNormal s ∧ s.keypadIn.head? = some 'A' ∧ enrollmentSucceeds s →
      ∃ sK, loop_keypad s = .done () sK ∧ sK.isLocked = true) := by
  obtain ⟨sK, sL, hK, hL, hT⟩ := loop_eq_done hloop
  refine ⟨fun hH hA => ?_, fun hH => ⟨sK, hK, loop_keypad_reset_locks s sK hH.1 hH.2 hK⟩,
    fun hA => loop_keypad_enroll_locks s hA.1 hA.2.1 hA.2.2⟩
  obtain ⟨v, rest, hv, hrest, _, hlock⟩ := loop_limitSwitch_done hL
  have h2 := sat_loop_tail frame_staysUnlocked setLocked_false_staysUnlocked (fun _ h => h) sL
  rw [hT] at h2
  refine h2 (hlock.trans ?_)
  by_cases hEn : isNormal s ∧ s.keypadIn.head? = some 'A'
  · have hfail : ¬ enrollmentSucceeds s := fun hok => hA ⟨hEn.1, hEn.2, hok⟩
    cases hl : s.keypadIn with
    | nil => have := hEn.2; rw [hl] at this; simp at this
    | cons k krest =>
      have hk := hEn.2
      rw [hl] at hk
      simp only [List.head?_cons, Option.some.injEq] at hk
      subst hk
      exact (loop_keypad_enroll_failed s sK krest hEn.1 hl hfail hK).trans hU
  · have lenK := sat_loop_keypad fullFrame_limitNotLonger s
    rw [hK] at lenK
    have lenT := sat_loop_tail frame_limitNotLonger
      (fullFrame_limitNotLonger.setLocked false)
      (fullFrame_limitNotLonger.setDeletion false) sL
    rw [hT] at lenT
    simp only [limitNotLonger, Run.state, hv, hrest, List.length_cons] at lenK lenT
    have hlen : s1.limitSwitchIn.length < s.limitSwitchIn.length := by omega
    obtain ⟨tl, htl⟩ : ∃ tl, s.limitSwitchIn = Level.HIGH :: tl := by
      cases reads with
      | nil => simp at hreads; rw [hreads] at hlen; omega
      | cons r reads1 =>
        have hr := hopen r (by simp)
        subst hr
        exact ⟨_, hreads⟩
    have hkey : isNormal s → s.keypadIn.head? ≠ some 'A' ∧ s.keypadIn.head? ≠ some '#' :=
      fun hN => ⟨fun hk => hEn ⟨hN, hk⟩, fun hk => hH ⟨hN, hk⟩⟩
    have h1 := loop_keypad_staysUnlocked s tl hU hkey htl
    rw [hK] at h1
    exact h1

/-- Claim C1 (amended) at a concrete input: unlocked, Normal mode, door open, key 'A' and
an enrollment whose `image2Tz(1)` fails: the iteration ends unlocked. -/
theorem C1_door_open_stays_unlocked_witness :
    (loop c1EnrollFail).state.isLocked = false :=
  (C1_door_open_stays_unlocked c1EnrollFail (loop c1EnrollFail).state [Level.HIGH]
    (by decide) (by decide) (by decide) (by decide)).1
    (fun h => absurd h.2 (by decide))
    (fun h => absurd h.2.2.2.2.2.1
      (fun ⟨_, ht⟩ => by simp [c1EnrollFail, Sys.powerOn, FINGERPRINT_OK] at ht))

/-- Claim C2: for every prior state and argument, `setLocked(b)`, `lockSystem()` and
`unlockSystem()` return, and the level they leave on `relayPin` is HIGH iff `isLocked` is
true; and in every state reachable after boot `relayPin` is HIGH iff `isLocked` is true. -/
theorem C2_relayPin_iff_isLocked :
    (∀ (b : Bool) (s : Sys), ∃ s1, setLocked b s = .done () s1 ∧ s1.isLocked = b ∧
      (s1.relayPin = .HIGH ↔ s1.isLocked = true)) ∧
    (∀ s : Sys, ∃ s1, lockSystem s = .done () s1 ∧
      (s1.relayPin = .HIGH ↔ s1.isLocked = true)) ∧
    (∀ s : Sys, ∃ s1, unlockSystem s = .done () s1 ∧
      (s1.relayPin = .HIGH ↔ s1.isLocked = true)) ∧
    (∀ s : Sys, ReachAfterBoot s → (s.relayPin = .HIGH ↔ s.isLocked = true)) := by
  refine ⟨?_, ?_, ?_, ?_⟩
  · intro b s
    obtain ⟨s1, h1, h2, h3⟩ := setLocked_run b s
    refine ⟨s1, h1, h2, ?_⟩
    rw [h2, h3]
    cases b <;> simp
  · intro s
    obtain ⟨s1, h1, h2, h3⟩ := lockSystem_run s
    exact ⟨s1, h1, by simp [h2, h3]⟩
  · intro s
    obtain ⟨s1, h1, h2, h3⟩ := unlockSystem_run s
    exact ⟨s1, h1, by simp [h2, h3]⟩
  · intro s h
    induction h with
    | boot s0 s hsetup =>
      obtain ⟨h1, h2⟩ := setup_done hsetup
      simp [h1, h2]
    | step s s1 _ hloop ih =>
      have h1 := sat_loop fullFrame_preservesRelayAgrees s ih
      rw [hloop] at h1
      exact h1

/-- Claim C3: when a `loop()` iteration completes, `relayPin2` holds the level `v` that the
limit switch returned to the read at the top of the limit-switch section (HIGH for HIGH,
LOW for LOW): the section writes that level and the tail of the iteration keeps it. -/
theorem C3_relayPin2_mirrors_limit_switch (s s1 : Sys) (h : loop s = .done () s1) :
    ∃ sK v rest sL, loop_keypad s = .done () sK ∧ sK.limitSwitchIn = v :: rest ∧
      loop_limitSwitch sK = .done () sL ∧ sL.relayPin2 = v ∧
      loop_tail sL = .done () s1 ∧ s1.relayPin2 = v := by
  obtain ⟨sK, sL, hK, hL, hT⟩ := loop_eq_done h
  obtain ⟨v, rest, hv, _, h2, _⟩ := loop_limitSwitch_done hL
  have hkeep := sat_loop_tail frame_keepsRelayPin2 (setLocked_keepsRelayPin2 false)
    (set_deletion_keepsRelayPin2 false) sL
  rw [hT] at hkeep
  exact ⟨sK, v, rest, sL, hK, hv, hL, h2, hT, hkeep.trans h2⟩

/-- Claim C3 at a concrete input: an idle iteration with the door open. -/
theorem C3_relayPin2_mirrors_limit_switch_witness :
    ∃ sK v rest sL, loop_keypad c3State = .done () sK ∧ sK.limitSwitchIn = v :: rest ∧
      loop_limitSwitch sK = .done () sL ∧ sL.relayPin2 = v ∧
      loop_tail sL = .done () (loop c3State).state ∧ (loop c3State).state.relayPin2 = v :=
  C3_relayPin2_mirrors_limit_switch c3State (loop c3State).state (by decide)

/-- Claim C5: for every prior state, `handleEmergencyUnlock('5')` returns with
`isLocked = false`, `relayPin` LOW and `enteringEmergencyPassword = false`; for every other
key it returns with `enteringEmergencyPassword = false` and with `isLocked` and `relayPin`
as they were before the call. -/
theorem C5_handleEmergencyUnlock (s : Sys) :
    (∃ s1, handleEmergencyUnlock '5' s = .done () s1 ∧ s1.isLocked = false ∧
      s1.relayPin = .LOW ∧ s1.enteringEmergencyPassword = false) ∧
    (∀ key : Char, key ≠ '5' → ∃ s1, handleEmergencyUnlock key s = .done () s1 ∧
      s1.enteringEmergencyPassword = false ∧ s1.isLocked = s.isLocked ∧
      s1.relayPin = s.relayPin) := by
  constructor
  · simp [handleEmergencyUnlock, unlockSystem, setLocked, set_isLocked, digitalWrite,
      set_enteringEmergencyPassword, lcd_setCursor, lcd_print, lcd_clear, emit, Sys.log]
  · intro key hkey
    simp [handleEmergencyUnlock, hkey, setupSystem, set_enteringEmergencyPassword,
      lcd_setCursor, lcd_print, lcd_clear, emit, Sys.log]

/-- Claim C6: when the sensor answers `r1` to `getImage()`, `r2` to `image2Tz()` and `r3`
to `fingerFastSearch()`, leaving `fid` in `fingerID`, `isFingerprintMatched()` returns, and
it returns true exactly when `r1`, `r2` and `r3` are all `FINGERPRINT_OK` and `fid` is 1
(equivalently, exactly when it made the three calls and got those answers); in every other
case it returns false. -/
theorem C6_isFingerprintMatched_iff (s : Sys) (r1 r2 r3 fid : Nat) (l1 l2 : List Nat)
    (l3 : List (Nat × Nat)) (h1 : s.getImageIn = r1 :: l1) (h2 : s.image2TzIn = r2 :: l2)
    (h3 : s.fingerFastSearchIn = (r3, fid) :: l3) :
    ∃ b s1, isFingerprintMatched s = .done b s1 ∧
      (b = true ↔ r1 = FINGERPRINT_OK ∧ r2 = FINGERPRINT_OK ∧ r3 = FINGERPRINT_OK ∧ fid = 1) ∧
      (b = true ↔ s1.trace = s.trace ++ [.getImage FINGERPRINT_OK,
        .image2Tz 1 FINGERPRINT_OK, .fingerFastSearch FINGERPRINT_OK 1]) := by
  by_cases e1 : r1 = FINGERPRINT_OK
  · by_cases e2 : r2 = FINGERPRINT_OK
    · by_cases e3 : r3 = FINGERPRINT_OK
      · by_cases e4 : fid = 1
        · simp [isFingerprintMatched, finger_getImage, finger_image2Tz,
            finger_fingerFastSearch, gets, Sys.log, h1, h2, h3, e1, e2, e3, e4]
        · simp [isFingerprintMatched, finger_getImage, finger_image2Tz,
            finger_fingerFastSearch, gets, Sys.log, h1, h2, h3, e1, e2, e3, e4]
      · simp [isFingerprintMatched, finger_getImage, finger_image2Tz,
          finger_fingerFastSearch, gets, Sys.log, h1, h2, h3, e1, e2, e3]
    · simp [isFingerprintMatched, finger_getImage, finger_image2Tz,
        finger_fingerFastSearch, gets, Sys.log, h1, h2, h3, e1, e2]
  · simp [isFingerprintMatched, finger_getImage, finger_image2Tz,
      finger_fingerFastSearch, gets, Sys.log, h1, h2, h3, e1]

/-- Claim C6 at a concrete input: a finger matching template 1 is reported as matched. -/
theorem C6_isFingerprintMatched_iff_witness :
    ∃ b s1, isFingerprintMatched c6State = .done b s1 ∧
      (b = true ↔ FINGERPRINT_OK = FINGERPRINT_OK ∧ FINGERPRINT_OK = FINGERPRINT_OK ∧
        FINGERPRINT_OK = FINGERPRINT_OK ∧ 1 = 1) ∧
      (b = true ↔ s1.trace = c6State.trace ++ [.getImage FINGERPRINT_OK,
        .image2Tz 1 FINGERPRINT_OK, .fingerFastSearch FINGERPRINT_OK 1]) :=
  C6_isFingerprintMatched_iff c6State FINGERPRINT_OK FINGERPRINT_OK FINGERPRINT_OK 1 [] [] []
    rfl rfl rfl

/-- Claim C7: when `getImage()` answers `r` other than `FINGERPRINT_OK`,
`isFingerprintMatched()` returns false and the state it leaves differs from the prior state
only in that the answer was consumed and the one `getImage` call was recorded: no further
sensor call, no display write, and `isLocked`, both mode flags and every output pin are
unchanged. -/
theorem C7_isFingerprintMatched_no_finger (s : Sys) (r : Nat) (rest : List Nat)
    (h : s.getImageIn = r :: rest) (hr : r ≠ FINGERPRINT_OK) :
    isFingerprintMatched s =
      .done false { s with getImageIn := rest, trace := s.trace ++ [.getImage r] } := by
  simp [isFingerprintMatched, finger_getImage, Sys.log, h, hr]

/-- Claim C7 at a concrete input: with no finger on the sensor the call returns false
after its single `getImage`. -/
theorem C7_isFingerprintMatched_no_finger_witness :
    isFingerprintMatched c7State =
      .done false { c7State with
        getImageIn := [], trace := c7State.trace ++ [.getImage FINGERPRINT_NOFINGER] } :=
  C7_isFingerprintMatched_no_finger c7State FINGERPRINT_NOFINGER [] rfl (by decide)

/-- Claim C8, as stated, fails: from an unlocked state with no deletion pending, the tail of
the iteration calls `getImage`, `image2Tz` and `fingerFastSearch`. -/
theorem C8_counterexample :
    c8State.waitingForFingerprintDeletion = false ∧ c8State.isLocked = false ∧
    sensorOps ((loop_tail c8State).state.trace.drop c8State.trace.length) =
      [.getImage FINGERPRINT_OK, .image2Tz 1 FINGERPRINT_OK,
       .fingerFastSearch FINGERPRINT_OK 1] := by
  decide

/-- Claim C8, amended: with no deletion pending the verification scan is attempted
whether or not the system is locked, and only the unlock after a match depends on
`isLocked`.  From a state with `waitingForFingerprintDeletion = false` and
`isLocked = false` the tail of the iteration returns after calling `getImage()`, then
`image2Tz()` if a finger was present, then `fingerFastSearch()` if extraction succeeded; it
leaves `isLocked`, both mode flags, the three output pins and the display unchanged. -/
theorem C8_scan_attempted_when_unlocked (s : Sys) (r1 r2 r3 fid : Nat) (l1 l2 : List Nat)
    (l3 : List (Nat × Nat)) (hD : s.waitingForFingerprintDeletion = false)
    (hL : s.isLocked = false) (h1 : s.getImageIn = r1 :: l1)
    (h2 : s.image2TzIn = r2 :: l2) (h3 : s.fingerFastSearchIn = (r3, fid) :: l3) :
    ∃ s1, loop_tail s = .done () s1 ∧
      s1.trace = s.trace ++ (.getImage r1 ::
        if r1 = FINGERPRINT_OK then
          .image2Tz 1 r2 :: if r2 = FINGERPRINT_OK then [.fingerFastSearch r3 fid] else []
        else []) ∧
      s1.isLocked = false ∧
      s1.enteringEmergencyPassword = s.enteringEmergencyPassword ∧
      s1.waitingForFingerprintDeletion = false ∧
      s1.relayPin = s.relayPin ∧ s1.relayPin2 = s.relayPin2 ∧ s1.buzzerPin = s.buzzerPin ∧
      s1.row0 = s.row0 ∧ s1.row1 = s.row1 := by
  by_cases e1 : r1 = FINGERPRINT_OK
  · by_cases e2 : r2 = FINGERPRINT_OK
    · by_cases e3 : r3 = FINGERPRINT_OK
      · by_cases e4 : fid = 1
        · simp [loop_tail, isFingerprintMatched, finger_getImage, finger_image2Tz,
            finger_fingerFastSearch, gets, Sys.log, hD, hL, h1, h2, h3, e1, e2, e3, e4]
        · simp [loop_tail, isFingerprintMatched, finger_getImage, finger_image2Tz,
            finger_fingerFastSearch, gets, Sys.log, hD, hL, h1, h2, h3, e1, e2, e3, e4]
      · simp [loop_tail, isFingerprintMatched, finger_getImage, finger_image2Tz,
          finger_fingerFastSearch, gets, Sys.log, hD, hL, h1, h2, h3, e1, e2, e3]
    · simp [loop_tail, isFingerprintMatched, finger_getImage, finger_image2Tz,
        finger_fingerFastSearch, gets, Sys.log, hD, hL, h1, h2, h3, e1, e2]
  · simp [loop_tail, isFingerprintMatched, finger_getImage, finger_image2Tz,
      finger_fingerFastSearch, gets, Sys.log, hD, hL, h1, h2, h3, e1]

/-- Claim C8 (amended) at a concrete input: unlocked, matching finger on the sensor. -/
theorem C8_scan_attempted_when_unlocked_witness :
    ∃ s1, loop_tail c8State = .done () s1 ∧
      s1.trace = c8State.trace ++ (.getImage FINGERPRINT_OK ::
        if FINGERPRINT_OK = FINGERPRINT_OK then
          .image2Tz 1 FINGERPRINT_OK ::
            if FINGERPRINT_OK = FINGERPRINT_OK then [.fingerFastSearch FINGERPRINT_OK 1]
            else []
        else []) ∧
      s1.isLocked = false ∧
      s1.enteringEmergencyPassword = c8State.enteringEmergencyPassword ∧
      s1.waitingForFingerprintDeletion = false ∧
      s1.relayPin = c8State.relayPin ∧ s1.relayPin2 = c8State.relayPin2 ∧
      s1.buzzerPin = c8State.buzzerPin ∧
      s1.row0 = c8State.row0 ∧ s1.row1 = c8State.row1 :=
  C8_scan_attempted_when_unlocked c8State FINGERPRINT_OK FINGERPRINT_OK FINGERPRINT_OK 1
    [] [] [] rfl rfl rfl rfl rfl

/-- Claim C9: in Normal mode, dispatching key 'C' while the limit switch reads HIGH (door
open) returns with `isLocked` and `relayPin` as before, `buzzerPin` LOW, row 0 of the
display reading "Not Closed      ", and exactly the calls listed: the buzzer is driven
HIGH, then LOW after the one-second delay, and nothing of `lockSystem()` (no write to
`relayPin` or `relayPin2`) is executed. -/
theorem C9_lock_refused_when_door_open (s : Sys) (rest : List Level)
    (hE : s.enteringEmergencyPassword = false)
    (hD : s.waitingForFingerprintDeletion = false)
    (hdoor : s.limitSwitchIn = .HIGH :: rest) :
    ∃ s1, loop_dispatch 'C' s = .done () s1 ∧
      s1.isLocked = s.isLocked ∧ s1.relayPin = s.relayPin ∧ s1.relayPin2 = s.relayPin2 ∧
      s1.row0 = "Not Closed      ".toList ∧ s1.buzzerPin = .LOW ∧
      s1.trace = s.trace ++ [.lcdClear, .serialPrint "Key pressed: ", .serialPrintln "C",
        .digitalRead .limitSwitchPin .HIGH, .digitalWrite .buzzerPin .HIGH,
        .lcdSetCursor 0 0, .lcdPrint "Not Closed      ", .delay 1000,
        .digitalWrite .buzzerPin .LOW, .serialPrintln "Door not locked, buzzer ON"] := by
  simp [loop_dispatch, loop_switch, gets, digitalRead_limitSwitchPin, digitalWrite,
    lcd_setCursor, lcd_print, lcd_clear, emit, Sys.log, hE, hD, hdoor]
  decide

/-- Claim C9 at a concrete input: unlocked, door open, key 'C'. -/
theorem C9_lock_refused_when_door_open_witness :
    ∃ s1, loop_dispatch 'C' c9State = .done () s1 ∧
      s1.isLocked = c9State.isLocked ∧ s1.relayPin = c9State.relayPin ∧
      s1.relayPin2 = c9State.relayPin2 ∧
      s1.row0 = "Not Closed      ".toList ∧ s1.buzzerPin = .LOW ∧
      s1.trace = c9State.trace ++ [.lcdClear, .serialPrint "Key pressed: ",
        .serialPrintln "C", .digitalRead .limitSwitchPin .HIGH,
        .digitalWrite .buzzerPin .HIGH, .lcdSetCursor 0 0, .lcdPrint "Not Closed      ",
        .delay 1000, .digitalWrite .buzzerPin .LOW,
        .serialPrintln "Door not locked, buzzer ON"] :=
  C9_lock_refused_when_door_open c9State [] rfl rfl rfl

/-- Claim C10: in Normal mode, locked or not, dispatching key 'C' while the limit switch
reads LOW (door closed) returns with `isLocked = true`, `relayPin` HIGH, both mode flags
false, display row 0 "D to delete     " and row 1 "Locked          ". -/
theorem C10_lock_when_door_closed (s : Sys) (rest : List Level)
    (hE : s.enteringEmergencyPassword = false)
    (hD : s.waitingForFingerprintDeletion = false)
    (hdoor : s.limitSwitchIn = .LOW :: rest) :
    ∃ s1, loop_dispatch 'C' s = .done () s1 ∧
      s1.isLocked = true ∧ s1.relayPin = .HIGH ∧
      s1.enteringEmergencyPassword = false ∧ s1.waitingForFingerprintDeletion = false ∧
      s1.row0 = "D to delete     ".toList ∧ s1.row1 = "Locked          ".toList := by
  simp [loop_dispatch, loop_switch, lockSystem, setLocked, set_isLocked, gets,
    digitalRead_limitSwitchPin, digitalWrite, lcd_setCursor, lcd_print, lcd_clear, emit,
    Sys.log, hE, hD, hdoor]
  decide

/-- Claim C10 at a concrete input: unlocked, door closed, key 'C'. -/
theorem C10_lock_when_door_closed_witness :
    ∃ s1, loop_dispatch 'C' c10State = .done () s1 ∧
      s1.isLocked = true ∧ s1.relayPin = .HIGH ∧
      s1.enteringEmergencyPassword = false ∧ s1.waitingForFingerprintDeletion = false ∧
      s1.row0 = "D to delete     ".toList ∧ s1.row1 = "Locked          ".toList :=
  C10_lock_when_door_closed c10State [] rfl rfl rfl

/-- Claim C12, as stated, fails: in Normal mode with key 'A', finger present, absent,
present again and every enrollment step successful, the iteration ends unlocked when the
finger just enrolled is still on the sensor: the scan in the tail of the same iteration
matches template 1 and `unlockSystem()` runs. -/
theorem C12_counterexample :
    isNormal c12State ∧ c12State.keypadIn = ['A'] ∧
    c12State.getImageIn.take 3 = [FINGERPRINT_OK, FINGERPRINT_NOFINGER, FINGERPRINT_OK] ∧
    ∃ s1, loop c12State = .done () s1 ∧
      Event.image2Tz 1 FINGERPRINT_OK ∈ s1.trace ∧
      Event.image2Tz 2 FINGERPRINT_OK ∈ s1.trace ∧
      Event.createModel FINGERPRINT_OK ∈ s1.trace ∧
      Event.storeModel 1 FINGERPRINT_OK ∈ s1.trace ∧
      s1.isLocked = false ∧ s1.relayPin = .LOW := by
  refine ⟨⟨rfl, rfl⟩, rfl, rfl, _, rfl, ?_, ?_, ?_, ?_, ?_, ?_⟩ <;> decide

/-- Claim C12, amended: in a `loop()` iteration taken in Normal mode with key 'A', in which
the sensor reports finger present, then absent, then present again and `image2Tz(1)`,
`image2Tz(2)`, `createModel()` and `storeModel(1)` all succeed, the keypad part ends with
`isLocked = true` and `relayPin` HIGH.  The iteration then ends with `isLocked = true` and
`relayPin` HIGH if the verification scan in its tail returns false, and with
`isLocked = false` and `relayPin` LOW if that scan returns true. -/
theorem C12_enroll_iteration_locks_until_match (s s1 : Sys) (krest : List Char)
    (t t3 t4 : List Nat)
    (hN : isNormal s) (hk : s.keypadIn = 'A' :: krest)
    (hImg : FINGERPRINT_OK ∈ s.getImageIn)
    (hOff : FINGERPRINT_NOFINGER ∈ remainingAfter FINGERPRINT_OK s.getImageIn)
    (hImg2 : FINGERPRINT_OK ∈
      remainingAfter FINGERPRINT_NOFINGER (remainingAfter FINGERPRINT_OK s.getImageIn))
    (hTz : s.image2TzIn = FINGERPRINT_OK :: FINGERPRINT_OK :: t)
    (hCm : s.createModelIn = FINGERPRINT_OK :: t3)
    (hSm : s.storeModelIn = FINGERPRINT_OK :: t4)
    (hloop : loop s = .done () s1) :
    ∃ sK sL b sM, loop_keypad s = .done () sK ∧ sK.isLocked = true ∧ sK.relayPin = .HIGH ∧
      loop_limitSwitch sK = .done () sL ∧ isFingerprintMatched sL = .done b sM ∧
      (b = false → s1.isLocked = true ∧ s1.relayPin = .HIGH) ∧
      (b = true → s1.isLocked = false ∧ s1.relayPin = .LOW) := by
  obtain ⟨sK, sL, hK, hL, hT⟩ := loop_eq_done hloop
  obtain ⟨sK1, hK1, hlock, hrelay, _, hdel⟩ :=
    loop_keypad_enroll_success s krest t t3 t4 hN hk hImg hOff hImg2 hTz hCm hSm
  rw [hK] at hK1
  cases hK1
  obtain ⟨v, rest, _, hframe⟩ := loop_limitSwitch_frame hL
  have hLlock : sL.isLocked = true := by rw [hframe]; exact hlock
  have hLrelay : sL.relayPin = .HIGH := by rw [hframe]; exact hrelay
  have hLdel : sL.waitingForFingerprintDeletion = false := by rw [hframe]; exact hdel
  obtain ⟨b, sM, hM, hyes, hno⟩ := loop_tail_idle_done hLdel hT
  have hMframe := isFingerprintMatched_done hM
  refine ⟨sK, sL, b, sM, hK, hlock, hrelay, hL, hM, ?_, ?_⟩
  · intro hb
    rw [hno (Or.inl hb), hMframe]
    exact ⟨hLlock, hLrelay⟩
  · intro hb
    obtain ⟨s2, h2, h3, h4⟩ := unlockSystem_run sM
    rw [hyes hb hLlock] at h2
    cases h2
    exact ⟨h3, h4⟩

/-- Claim C12 (amended) at a concrete input: the finger is lifted after the enrollment
and the iteration ends locked. -/
theorem C12_enroll_iteration_locks_until_match_witness :
    ∃ sK sL b sM, loop_keypad c12Lifted = .done () sK ∧ sK.isLocked = true ∧
      sK.relayPin = .HIGH ∧
      loop_limitSwitch sK = .done () sL ∧ isFingerprintMatched sL = .done b sM ∧
      (b = false → (loop c12Lifted).state.isLocked = true ∧
        (loop c12Lifted).state.relayPin = .HIGH) ∧
      (b = true → (loop c12Lifted).state.isLocked = false ∧
        (loop c12Lifted).state.relayPin = .LOW) :=
  C12_enroll_iteration_locks_until_match c12Lifted (loop c12Lifted).state [] [] [] []
    ⟨rfl, rfl⟩ rfl (by decide) (by decide) (by decide) rfl rfl rfl (by decide)

/-- Claim C13: when a finger arrives and `image2Tz()` and `fingerFastSearch()` both answer
`FINGERPRINT_OK` with `fingerID = 1`, `handleFingerprintDeletion()` returns after exactly
one `deleteModel(1)` call and, whatever that call answered, with `isLocked = false`,
`relayPin` LOW, `waitingForFingerprintDeletion = false` and the display at the idle prompt
"A to use finger " over a blank row.  The calls made are those listed: the two outcomes
differ only in the answer of `deleteModel` and in the message printed after it. -/
theorem C13_deletion_success_path (s : Sys) (r : Nat) (t1 : List Nat)
    (t2 : List (Nat × Nat)) (t3 : List Nat)
    (hImg : FINGERPRINT_OK ∈ s.getImageIn)
    (hTz : s.image2TzIn = FINGERPRINT_OK :: t1)
    (hSearch : s.fingerFastSearchIn = (FINGERPRINT_OK, 1) :: t2)
    (hDel : s.deleteModelIn = r :: t3) :
    ∃ s1, handleFingerprintDeletion s = .done () s1 ∧
      s1.isLocked = false ∧ s1.relayPin = .LOW ∧
      s1.waitingForFingerprintDeletion = false ∧
      s1.enteringEmergencyPassword = s.enteringEmergencyPassword ∧
      s1.row0 = "A to use finger ".toList ∧ s1.row1 = blankRow ∧
      s1.trace = s.trace ++
        [.lcdSetCursor 0 0, .lcdPrint "Place finger    ", .lcdSetCursor 0 1,
         .lcdPrint "to delete       "] ++
        (consumedThrough FINGERPRINT_OK s.getImageIn).map Event.getImage ++
        [.image2Tz 1 FINGERPRINT_OK, .fingerFastSearch FINGERPRINT_OK 1,
         .lcdSetCursor 0 1, .deleteModel 1 r,
         .lcdPrint (if r = FINGERPRINT_OK then "Deleted         " else "Error           "),
         .delay 2000, .lcdClear,
         .digitalWrite .relayPin .LOW, .lcdSetCursor 0 0, .lcdPrint "Unlocked        ",
         .lcdSetCursor 0 1, .lcdPrint "C to lock       ", .delay 1000, .lcdClear,
         .lcdSetCursor 0 0, .lcdPrint "Unlocked        ", .lcdSetCursor 0 1,
         .lcdPrint "C to lock       ",
         .lcdSetCursor 0 0, .lcdPrint "A to use finger ", .lcdSetCursor 0 1,
         .lcdPrint "                "] := by
  by_cases hr : r = FINGERPRINT_OK
  · simp [handleFingerprintDeletion, deleteFingerprint, unlockSystem, setLocked, setupSystem,
      set_isLocked, set_waitingForFingerprintDeletion, whileGetImageNe_done, gets,
      finger_image2Tz, finger_fingerFastSearch, finger_deleteModel, digitalWrite,
      lcd_setCursor, lcd_print, lcd_clear, emit, Sys.log, hImg, hTz, hSearch, hDel, hr]
    decide
  · simp [handleFingerprintDeletion, deleteFingerprint, unlockSystem, setLocked, setupSystem,
      set_isLocked, set_waitingForFingerprintDeletion, whileGetImageNe_done, gets,
      finger_image2Tz, finger_fingerFastSearch, finger_deleteModel, digitalWrite,
      lcd_setCursor, lcd_print, lcd_clear, emit, Sys.log, hImg, hTz, hSearch, hDel, hr]
    decide

/-- Claim C13 at a concrete input: the enrolled finger arrives on the second poll and the
sensor deletes the template. -/
theorem C13_deletion_success_path_witness :
    ∃ s1, handleFingerprintDeletion c13State = .done () s1 ∧
      s1.isLocked = false ∧ s1.relayPin = .LOW ∧
      s1.waitingForFingerprintDeletion = false ∧
      s1.enteringEmergencyPassword = c13State.enteringEmergencyPassword ∧
      s1.row0 = "A to use finger ".toList ∧ s1.row1 = blankRow ∧
      s1.trace = c13State.trace ++
        [.lcdSetCursor 0 0, .lcdPrint "Place finger    ", .lcdSetCursor 0 1,
         .lcdPrint "to delete       "] ++
        (consumedThrough FINGERPRINT_OK c13State.getImageIn).map Event.getImage ++
        [.image2Tz 1 FINGERPRINT_OK, .fingerFastSearch FINGERPRINT_OK 1,
         .lcdSetCursor 0 1, .deleteModel 1 FINGERPRINT_OK,
         .lcdPrint (if FINGERPRINT_OK = FINGERPRINT_OK then "Deleted         "
           else "Error           "),
         .delay 2000, .lcdClear,
         .digitalWrite .relayPin .LOW, .lcdSetCursor 0 0, .lcdPrint "Unlocked        ",
         .lcdSetCursor 0 1, .lcdPrint "C to lock       ", .delay 1000, .lcdClear,
         .lcdSetCursor 0 0, .lcdPrint "Unlocked        ", .lcdSetCursor 0 1,
         .lcdPrint "C to lock       ",
         .lcdSetCursor 0 0, .lcdPrint "A to use finger ", .lcdSetCursor 0 1,
         .lcdPrint "                "] :=
  C13_deletion_success_path c13State FINGERPRINT_OK [] [] [] (by decide) rfl rfl rfl

/-- Claim C14: once a finger has arrived, `handleFingerprintDeletion()` returns on each of
its three failure paths (feature extraction not OK; search not OK; `fingerID` other than
1) without calling `deleteModel` (the calls made are those listed and no pending
`deleteModel` answer is consumed), with `isLocked` and `relayPin` as before, and with
`waitingForFingerprintDeletion = false`, so that the next iteration does not re-enter the
deletion handler. -/
theorem C14_deletion_failure_paths (s : Sys) (hImg : FINGERPRINT_OK ∈ s.getImageIn) :
    (∀ (r1 : Nat) (t1 : List Nat), s.image2TzIn = r1 :: t1 → r1 ≠ FINGERPRINT_OK →
      ∃ s1, handleFingerprintDeletion s = .done () s1 ∧
        s1.waitingForFingerprintDeletion = false ∧ s1.isLocked = s.isLocked ∧
        s1.relayPin = s.relayPin ∧ s1.deleteModelIn = s.deleteModelIn ∧
        s1.trace = s.trace ++
          [.lcdSetCursor 0 0, .lcdPrint "Place finger    ", .lcdSetCursor 0 1,
           .lcdPrint "to delete       "] ++
          (consumedThrough FINGERPRINT_OK s.getImageIn).map Event.getImage ++
          [.image2Tz 1 r1, .lcdSetCursor 0 1, .lcdPrint "Error           ", .delay 2000,
           .lcdClear, .lcdSetCursor 0 0, .lcdPrint "Press D to      ", .lcdSetCursor 0 1,
           .lcdPrint "delete fingerprint"]) ∧
    (∀ (t1 : List Nat) (r2 fid : Nat) (t2 : List (Nat × Nat)),
      s.image2TzIn = FINGERPRINT_OK :: t1 → s.fingerFastSearchIn = (r2, fid) :: t2 →
      r2 ≠ FINGERPRINT_OK →
      ∃ s1, handleFingerprintDeletion s = .done () s1 ∧
        s1.waitingForFingerprintDeletion = false ∧ s1.isLocked = s.isLocked ∧
        s1.relayPin = s.relayPin ∧ s1.deleteModelIn = s.deleteModelIn ∧
        s1.trace = s.trace ++
          [.lcdSetCursor 0 0, .lcdPrint "Place finger    ", .lcdSetCursor 0 1,
           .lcdPrint "to delete       "] ++
          (consumedThrough FINGERPRINT_OK s.getImageIn).map Event.getImage ++
          [.image2Tz 1 FINGERPRINT_OK, .fingerFastSearch r2 fid, .lcdSetCursor 0 1,
           .lcdPrint "Not Found       ", .delay 2000,
           .lcdClear, .lcdSetCursor 0 0, .lcdPrint "Press D to      ", .lcdSetCursor 0 1,
           .lcdPrint "delete fingerprint"]) ∧
    (∀ (t1 : List Nat) (fid : Nat) (t2 : List (Nat × Nat)),
      s.image2TzIn = FINGERPRINT_OK :: t1 →
      s.fingerFastSearchIn = (FINGERPRINT_OK, fid) :: t2 → fid ≠ 1 →
      ∃ s1, handleFingerprintDeletion s = .done () s1 ∧
        s1.waitingForFingerprintDeletion = false ∧ s1.isLocked = s.isLocked ∧
        s1.relayPin = s.relayPin ∧ s1.deleteModelIn = s.deleteModelIn ∧
        s1.trace = s.trace ++
          [.lcdSetCursor 0 0, .lcdPrint "Place finger    ", .lcdSetCursor 0 1,
           .lcdPrint "to delete       "] ++
          (consumedThrough FINGERPRINT_OK s.getImageIn).map Event.getImage ++
          [.image2Tz 1 FINGERPRINT_OK, .fingerFastSearch FINGERPRINT_OK fid,
           .lcdSetCursor 0 1, .lcdPrint "Wrong Finger    ", .delay 2000,
           .lcdClear, .lcdSetCursor 0 0, .lcdPrint "Press D to      ", .lcdSetCursor 0 1,
           .lcdPrint "delete fingerprint"]) := by
  refine ⟨?_, ?_, ?_⟩
  · intro r1 t1 hTz hr1
    simp [handleFingerprintDeletion, deletionError, set_waitingForFingerprintDeletion,
      whileGetImageNe_done, finger_image2Tz, lcd_setCursor, lcd_print, lcd_clear, emit,
      Sys.log, hImg, hTz, hr1]
  · intro t1 r2 fid t2 hTz hSearch hr2
    simp [handleFingerprintDeletion, deletionError, set_waitingForFingerprintDeletion,
      whileGetImageNe_done, finger_image2Tz, finger_fingerFastSearch, lcd_setCursor,
      lcd_print, lcd_clear, emit, Sys.log, hImg, hTz, hSearch, hr2]
  · intro t1 fid t2 hTz hSearch hfid
    simp [handleFingerprintDeletion, deletionError, set_waitingForFingerprintDeletion,
      whileGetImageNe_done, finger_image2Tz, finger_fingerFastSearch, gets, lcd_setCursor,
      lcd_print, lcd_clear, emit, Sys.log, hImg, hTz, hSearch, hfid]

/-- Claim C14 at a concrete input: feature extraction fails with code 1. -/
theorem C14_deletion_failure_paths_witness :
    ∃ s1, handleFingerprintDeletion c14State = .done () s1 ∧
      s1.waitingForFingerprintDeletion = false ∧ s1.isLocked = c14State.isLocked ∧
      s1.relayPin = c14State.relayPin ∧ s1.deleteModelIn = c14State.deleteModelIn ∧
      s1.trace = c14State.trace ++
        [.lcdSetCursor 0 0, .lcdPrint "Place finger    ", .lcdSetCursor 0 1,
         .lcdPrint "to delete       "] ++
        (consumedThrough FINGERPRINT_OK c14State.getImageIn).map Event.getImage ++
        [.image2Tz 1 1, .lcdSetCursor 0 1, .lcdPrint "Error           ", .delay 2000,
         .lcdClear, .lcdSetCursor 0 0, .lcdPrint "Press D to      ", .lcdSetCursor 0 1,
         .lcdPrint "delete fingerprint"] :=
  (C14_deletion_failure_paths c14State (by decide)).1 1 [] rfl (by decide)

/-- Claim C15: from every prior state, `setup()` returns when `verifyPassword()` answers
true, with `isLocked = true`, `relayPin` HIGH and the display showing the idle prompt
"A to use finger " over a blank row; when `verifyPassword()` answers false it never
returns: it halts with `isLocked = true` after printing "Finger Err" on row 1.  Key '#' in
Normal mode runs `resetSystem()`, whose outcome from any state is that of `setup()` from
the same state: same globals, pins, display and pending answers; only the recorded calls
differ, by the "System reset" line and the `lcd.clear()` that precede the boot sequence. -/
theorem C15_setup_and_reset :
    (∀ (s : Sys) (rest : List Bool), s.verifyPasswordIn = true :: rest →
      ∃ s1, setup s = .done () s1 ∧ s1.isLocked = true ∧ s1.relayPin = .HIGH ∧
        s1.row0 = "A to use finger ".toList ∧ s1.row1 = blankRow) ∧
    (∀ (s : Sys) (rest : List Bool), s.verifyPasswordIn = false :: rest →
      ∃ s1, setup s = .halted s1 ∧ s1.isLocked = true ∧ s1.relayPin = .HIGH ∧
        s1.cursorRow = 1 ∧ s1.row1.take 10 = "Finger Err".toList ∧
        s1.trace = s.trace ++
          [.serialBegin 9600, .lcdInit, .lcdBacklight, .lcdSetCursor 0 0,
           .lcdPrint "Welcome", .lcdSetCursor 0 1, .lcdPrint "System Load",
           .pinMode .relayPin .OUTPUT, .pinMode .relayPin2 .OUTPUT,
           .pinMode .buzzerPin .OUTPUT, .pinMode .limitSwitchPin .INPUT_PULLUP,
           .digitalWrite .relayPin .HIGH, .lcdSetCursor 0 0, .lcdPrint "Locked          ",
           .lcdSetCursor 0 1, .lcdPrint "                ",
           .softSerialBegin 57600, .sensorBegin 57600, .delay 1000,
           .serialPrintln "Initializing fingerprint sensor...", .lcdSetCursor 0 1,
           .verifyPassword false, .lcdPrint "Finger Err",
           .serialPrintln "Error: Unable to initialize fingerprint sensor."]) ∧
    loop_switch '#' = resetSystem ∧
    (∀ s : Sys, (resetSystem s).device = (setup s).device) := by
  refine ⟨?_, ?_, ?_, ?_⟩
  · intro s rest hv
    simp [setup, setLocked, set_isLocked, digitalWrite, lcd_setCursor, lcd_print, lcd_clear,
      lcd_init, emit, Sys.log, finger_verifyPassword, setupSystem, hv]
    decide
  · intro s rest hv
    simp [setup, setLocked, set_isLocked, digitalWrite, lcd_setCursor, lcd_print, lcd_clear,
      lcd_init, emit, Sys.log, finger_verifyPassword, haltForever, hv]
    decide
  · unfold loop_switch
    simp
  · intro s
    cases hv : s.verifyPasswordIn with
    | nil =>
      simp [resetSystem, setup, setLocked, set_isLocked, digitalWrite, lcd_setCursor,
        lcd_print, lcd_clear, lcd_init, emit, Sys.log, finger_verifyPassword, Run.device,
        Sys.device, hv]
    | cons ok rest =>
      cases ok
      · simp [resetSystem, setup, setLocked, set_isLocked, digitalWrite, lcd_setCursor,
          lcd_print, lcd_clear, lcd_init, emit, Sys.log, finger_verifyPassword, haltForever,
          Run.device, Sys.device, hv]
      · simp [resetSystem, setup, setLocked, set_isLocked, digitalWrite, lcd_setCursor,
          lcd_print, lcd_clear, lcd_init, emit, Sys.log, finger_verifyPassword, setupSystem,
          Run.device, Sys.device, hv]

/-- Claim C16, as stated, fails: `setup()` prints "Welcome" (7 characters), "System Load"
(11) and "System Ok   " (12), or "Finger Err" (10) when the sensor check fails, and the
failure exits of `handleFingerprintDeletion()` print "delete fingerprint" (18). -/
theorem C16_counterexample :
    (Event.lcdPrint "Welcome" ∈ (setup c16BootOk).state.trace ∧ "Welcome".length = 7) ∧
    (Event.lcdPrint "System Load" ∈ (setup c16BootOk).state.trace ∧
      "System Load".length = 11) ∧
    (Event.lcdPrint "System Ok   " ∈ (setup c16BootOk).state.trace ∧
      "System Ok   ".length = 12) ∧
    (Event.lcdPrint "Finger Err" ∈ (setup c16BootFail).state.trace ∧
      "Finger Err".length = 10) ∧
    (Event.lcdPrint "delete fingerprint" ∈
        (handleFingerprintDeletion c16Deletion).state.trace ∧
      "delete fingerprint".length = 18) := by
  decide

/-- Claim C16, amended: on every execution path of `setup()` and of `loop()` with the
handlers it calls, completed or not, the display evolves as the recorded calls say
(`Display.replay`), and every string printed, other than the 18-character
"delete fingerprint", is exactly 16 characters long or is shorter and printed from column
0 of a row that is blank at that moment, so that no earlier text is left beside it. -/
theorem C16_display_lines (s : Sys) :
    (∃ new, (setup s).state.trace = s.trace ++ new ∧
      (setup s).state.display = s.display.replay new ∧
      ∀ pre t post, new = pre ++ Event.lcdPrint t :: post → t ≠ "delete fingerprint" →
        t.length = 16 ∨
        (t.length < 16 ∧ (s.display.replay pre).cursorCol = 0 ∧
          (s.display.replay pre).currentRow = some blankRow)) ∧
    (∃ new, (loop s).state.trace = s.trace ++ new ∧
      (loop s).state.display = s.display.replay new ∧
      ∀ pre t post, new = pre ++ Event.lcdPrint t :: post → t ≠ "delete fingerprint" →
        t.length = 16 ∨
        (t.length < 16 ∧ (s.display.replay pre).cursorCol = 0 ∧
          (s.display.replay pre).currentRow = some blankRow)) := by
  have key : ∀ s1, placedRun s s1 → ∃ new, s1.trace = s.trace ++ new ∧
      s1.display = s.display.replay new ∧
      ∀ pre t post, new = pre ++ Event.lcdPrint t :: post → t ≠ "delete fingerprint" →
        t.length = 16 ∨
        (t.length < 16 ∧ (s.display.replay pre).cursorCol = 0 ∧
          (s.display.replay pre).currentRow = some blankRow) := by
    rintro s1 ⟨new, h1, h2, h3⟩
    refine ⟨new, h1, h2, fun pre t post hnew hno => ?_⟩
    rw [hnew] at h3
    rcases printsPlaced_at _ _ _ _ h3 with h | h | h
    · exact Or.inl h
    · exact absurd h hno
    · exact Or.inr h
  exact ⟨key _ (pr_setup s), key _ (pr_loop s)⟩

/-- Claim C17: `enrollFingerprint()` consumes the pending `getImage()` answers in three
wait phases.  A wait for `code` consumes the answers up to and including the first `code`
(`consumedThrough`) and leaves the rest (`remainingAfter`).  Phase 1 waits for
`FINGERPRINT_OK`, then `image2Tz(1)` is called; if it succeeds phase 2 waits for
`FINGERPRINT_NOFINGER`, phase 3 waits for `FINGERPRINT_OK`, then `image2Tz(2)` is called.
The function returns when `image2Tz(1)` fails after phase 1, and when the answers contain
OK, later NOFINGER, later OK (the other sensor calls being answered).  When a phase is not
satisfied by the pending answers the run is still waiting: it has made only `getImage`
calls since the phase began, and `isLocked`, the mode flags and the output pins are
unchanged. -/
theorem C17_enroll_wait_phases (s : Sys) :
    (∀ (code : Nat) (l : List Nat), code ∈ l →
      ∃ pre, l = pre ++ code :: remainingAfter code l ∧ code ∉ pre ∧
        consumedThrough code l = pre ++ [code]) ∧
    (FINGERPRINT_OK ∉ s.getImageIn →
      ∃ s1, enrollFingerprint s = .blocked s1 ∧ sameControl s s1 ∧
        s1.trace = s.trace ++ enrollStartEvents ++ s.getImageIn.map Event.getImage) ∧
    (∀ (r1 : Nat) (t : List Nat), FINGERPRINT_OK ∈ s.getImageIn →
      s.image2TzIn = r1 :: t → r1 ≠ FINGERPRINT_OK →
      ∃ s1, enrollFingerprint s = .done () s1 ∧
        s1.getImageIn = remainingAfter FINGERPRINT_OK s.getImageIn ∧
        s1.trace = s.trace ++ enrollStartEvents ++
          (consumedThrough FINGERPRINT_OK s.getImageIn).map Event.getImage ++
          [.image2Tz 1 r1] ++ enrollErrorEvents) ∧
    (∀ t : List Nat, FINGERPRINT_OK ∈ s.getImageIn →
      s.image2TzIn = FINGERPRINT_OK :: t →
      FINGERPRINT_NOFINGER ∉ remainingAfter FINGERPRINT_OK s.getImageIn →
      ∃ s1, enrollFingerprint s = .blocked s1 ∧ sameControl s s1 ∧
        s1.trace = s.trace ++ enrollStartEvents ++
          (consumedThrough FINGERPRINT_OK s.getImageIn).map Event.getImage ++
          [.image2Tz 1 FINGERPRINT_OK] ++ enrollRemoveEvents ++
          (remainingAfter FINGERPRINT_OK s.getImageIn).map Event.getImage) ∧
    (∀ t : List Nat, FINGERPRINT_OK ∈ s.getImageIn →
      s.image2TzIn = FINGERPRINT_OK :: t →
      FINGERPRINT_NOFINGER ∈ remainingAfter FINGERPRINT_OK s.getImageIn →
      FINGERPRINT_OK ∉
        remainingAfter FINGERPRINT_NOFINGER (remainingAfter FINGERPRINT_OK s.getImageIn) →
      ∃ s1, enrollFingerprint s = .blocked s1 ∧ sameControl s s1 ∧
        s1.trace = s.trace ++ enrollStartEvents ++
          (consumedThrough FINGERPRINT_OK s.getImageIn).map Event.getImage ++
          [.image2Tz 1 FINGERPRINT_OK] ++ enrollRemoveEvents ++
          (consumedThrough FINGERPRINT_NOFINGER
            (remainingAfter FINGERPRINT_OK s.getImageIn)).map Event.getImage ++
          enrollAgainEvents ++
          (remainingAfter FINGERPRINT_NOFINGER
            (remainingAfter FINGERPRINT_OK s.getImageIn)).map Event.getImage) ∧
    (∀ (r2 r3 r4 : Nat) (t t3 t4 : List Nat), FINGERPRINT_OK ∈ s.getImageIn →
      FINGERPRINT_NOFINGER ∈ remainingAfter FINGERPRINT_OK s.getImageIn →
      FINGERPRINT_OK ∈
        remainingAfter FINGERPRINT_NOFINGER (remainingAfter FINGERPRINT_OK s.getImageIn) →
      s.image2TzIn = FINGERPRINT_OK :: r2 :: t → s.createModelIn = r3 :: t3 →
      s.storeModelIn = r4 :: t4 →
      ∃ s1 rest, enrollFingerprint s = .done () s1 ∧
        s1.getImageIn = remainingAfter FINGERPRINT_OK
          (remainingAfter FINGERPRINT_NOFINGER
            (remainingAfter FINGERPRINT_OK s.getImageIn)) ∧
        s1.trace = s.trace ++ enrollStartEvents ++
          (consumedThrough FINGERPRINT_OK s.getImageIn).map Event.getImage ++
          [.image2Tz 1 FINGERPRINT_OK] ++ enrollRemoveEvents ++
          (consumedThrough FINGERPRINT_NOFINGER
            (remainingAfter FINGERPRINT_OK s.getImageIn)).map Event.getImage ++
          enrollAgainEvents ++
          (consumedThrough FINGERPRINT_OK
            (remainingAfter FINGERPRINT_NOFINGER
              (remainingAfter FINGERPRINT_OK s.getImageIn))).map Event.getImage ++
          .image2Tz 2 r2 :: rest) := by
  refine ⟨consumed_remaining, ?_, ?_, ?_, ?_, ?_⟩
  · intro hImg
    rw [enroll_blocked_wait1 s hImg]
    exact ⟨_, rfl, ⟨rfl, rfl, rfl, rfl, rfl, rfl, rfl, rfl⟩, rfl⟩
  · intro r1 t hImg hTz hr1
    rw [enroll_fail_image2Tz1 s r1 t hImg hTz hr1]
    exact ⟨_, rfl, rfl, rfl⟩
  · intro t hImg hTz hOff
    rw [enroll_blocked_wait2 s t hImg hOff hTz]
    exact ⟨_, rfl, ⟨rfl, rfl, rfl, rfl, rfl, rfl, rfl, rfl⟩, rfl⟩
  · intro t hImg hTz hOff hImg2
    rw [enroll_blocked_wait3 s t hImg hOff hImg2 hTz]
    exact ⟨_, rfl, ⟨rfl, rfl, rfl, rfl, rfl, rfl, rfl, rfl⟩, rfl⟩
  · intro r2 r3 r4 t t3 t4 hImg hOff hImg2 hTz hCm hSm
    by_cases hr2 : r2 = FINGERPRINT_OK
    swap
    · rw [enroll_fail_image2Tz2 s r2 t hImg hOff hImg2 hTz hr2]
      exact ⟨_, enrollErrorEvents, rfl, rfl, by simp [waitEvents, List.append_assoc]⟩
    subst hr2
    by_cases hr3 : r3 = FINGERPRINT_OK
    swap
    · rw [enroll_fail_createModel s r3 t t3 hImg hOff hImg2 hTz hCm hr3]
      exact ⟨_, .createModel r3 :: enrollErrorEvents, rfl, rfl,
        by simp [waitEvents, List.append_assoc]⟩
    subst hr3
    by_cases hr4 : r4 = FINGERPRINT_OK
    swap
    · rw [enroll_fail_storeModel s r4 t t3 t4 hImg hOff hImg2 hTz hCm hSm hr4]
      exact ⟨_, .createModel FINGERPRINT_OK :: .storeModel 1 r4 :: enrollErrorEvents, rfl,
        rfl, by simp [waitEvents, List.append_assoc]⟩
    subst hr4
    rw [enroll_success s t t3 t4 hImg hOff hImg2 hTz hCm hSm]
    exact ⟨_, .createModel FINGERPRINT_OK :: .storeModel 1 FINGERPRINT_OK ::
      enrollLockEvents, rfl, rfl, by simp [waitEvents, List.append_assoc]⟩

/-- Claim C18: `waitingForFingerprintDeletion` is false at the start of every `loop()`
iteration reachable from a power-on boot, and again when the iteration completes; so the
key dispatch of the iteration never takes its "ignore keypad input" branch: the keypad
part of `loop()` behaves as the dispatcher without that branch. -/
theorem C18_deletion_never_pending_at_loop_start (s : Sys) (h : ReachFromPowerOn s) :
    s.waitingForFingerprintDeletion = false ∧
    (∀ s1, loop s = .done () s1 → s1.waitingForFingerprintDeletion = false) ∧
    loop_keypad s =
      (keypad_getKey >>= fun key =>
        if key ≠ NO_KEY then loop_dispatch_active key else pure ()) s := by
  have hD : s.waitingForFingerprintDeletion = false := by
    induction h with
    | boot s0 s _ _ hD hsetup =>
      have hk := sat_setup frame_keepsFlags (setLocked_keepsFlags true) s0
      rw [hsetup] at hk
      exact hk.2.trans hD
    | step s s1 _ hloop _ => exact loop_ends_deletion_clear hloop
  refine ⟨hD, fun s1 h1 => loop_ends_deletion_clear h1, ?_⟩
  cases hk : s.keypadIn with
  | nil => simp [loop_keypad, keypad_getKey, hk]
  | cons k rest =>
    simp only [loop_keypad, bind_run, keypad_getKey, hk]
    split
    · exact loop_dispatch_eq_active k _ hD
    · rfl

/-- Claim C18 at a concrete input: after boot, key 'D' and a finger the search does not
find, the next iteration starts with the flag clear. -/
theorem C18_deletion_never_pending_at_loop_start_witness :
    (loop (setup c18Boot).state).state.waitingForFingerprintDeletion = false ∧
    (∀ s1, loop (loop (setup c18Boot).state).state = .done () s1 →
      s1.waitingForFingerprintDeletion = false) ∧
    loop_keypad (loop (setup c18Boot).state).state =
      (keypad_getKey >>= fun key =>
        if key ≠ NO_KEY then loop_dispatch_active key else pure ())
        (loop (setup c18Boot).state).state :=
  C18_deletion_never_pending_at_loop_start (loop (setup c18Boot).state).state
    (ReachFromPowerOn.step (setup c18Boot).state _
      (ReachFromPowerOn.boot c18Boot _ rfl rfl rfl (by decide)) (by decide))

/-- Claim C19: take a completed `loop()` iteration that starts with
`waitingForFingerprintDeletion = false` and in which the keypad returns no key.  If the
`isFingerprintMatched()` call of its tail returns false, then `isLocked`, `relayPin`,
`buzzerPin`, both mode flags and both display rows are as before, and `relayPin2` holds
the level read from the limit switch.  If it returns true, the iteration ends with
`isLocked = false` and both mode flags as before. -/
theorem C19_idle_iteration (s s1 : Sys) (krest : List Char)
    (hD : s.waitingForFingerprintDeletion = false) (hk : s.keypadIn = NO_KEY :: krest)
    (hloop : loop s = .done () s1) :
    ∃ sK v lrest sL b sM, loop_keypad s = .done () sK ∧ sK.limitSwitchIn = v :: lrest ∧
      loop_limitSwitch sK = .done () sL ∧ isFingerprintMatched sL = .done b sM ∧
      (b = false →
        s1.isLocked = s.isLocked ∧ s1.relayPin = s.relayPin ∧ s1.buzzerPin = s.buzzerPin ∧
        s1.enteringEmergencyPassword = s.enteringEmergencyPassword ∧
        s1.waitingForFingerprintDeletion = s.waitingForFingerprintDeletion ∧
        s1.row0 = s.row0 ∧ s1.row1 = s.row1 ∧ s1.relayPin2 = v) ∧
      (b = true →
        s1.isLocked = false ∧
        s1.enteringEmergencyPassword = s.enteringEmergencyPassword ∧
        s1.waitingForFingerprintDeletion = s.waitingForFingerprintDeletion) := by
  obtain ⟨sK, sL, hK, hL, hT⟩ := loop_eq_done hloop
  have hK1 : sK = { s with keypadIn := krest, trace := s.trace ++ [.getKey NO_KEY] } := by
    simp [loop_keypad, keypad_getKey, hk, Sys.log] at hK
    exact hK.symm
  obtain ⟨v, lrest, hv, hframe⟩ := loop_limitSwitch_frame hL
  have hLd : sL.waitingForFingerprintDeletion = false := by rw [hframe, hK1]; exact hD
  obtain ⟨b, sM, hM, hyes, hno⟩ := loop_tail_idle_done hLd hT
  have hMframe := isFingerprintMatched_done hM
  refine ⟨sK, v, lrest, sL, b, sM, hK, hv, hL, hM, ?_, ?_⟩
  · intro hb
    rw [hno (Or.inl hb), hMframe, hframe, hK1]
    exact ⟨rfl, rfl, rfl, rfl, rfl, rfl, rfl, rfl⟩
  · intro hb
    have hMflags : sM.enteringEmergencyPassword = s.enteringEmergencyPassword ∧
        sM.waitingForFingerprintDeletion = s.waitingForFingerprintDeletion := by
      rw [hMframe, hframe, hK1]
      exact ⟨rfl, rfl⟩
    cases hl : sL.isLocked with
    | false =>
      rw [hno (Or.inr hl)]
      refine ⟨?_, hMflags⟩
      rw [hMframe]
      exact hl
    | true =>
      obtain ⟨s2, h2, h3, _⟩ := unlockSystem_run sM
      have hk2 := unlockSystem_keepsFlags sM
      rw [hyes hb hl] at h2 hk2
      cases h2
      exact ⟨h3, hk2.1.trans hMflags.1, hk2.2.trans hMflags.2⟩

/-- Claim C19 at a concrete input: locked, no key, the enrolled finger on the sensor. -/
theorem C19_idle_iteration_witness :
    ∃ sK v lrest sL b sM, loop_keypad c19State = .done () sK ∧
      sK.limitSwitchIn = v :: lrest ∧
      loop_limitSwitch sK = .done () sL ∧ isFingerprintMatched sL = .done b sM ∧
      (b = false →
        (loop c19State).state.isLocked = c19State.isLocked ∧
        (loop c19State).state.relayPin = c19State.relayPin ∧
        (loop c19State).state.buzzerPin = c19State.buzzerPin ∧
        (loop c19State).state.enteringEmergencyPassword =
          c19State.enteringEmergencyPassword ∧
        (loop c19State).state.waitingForFingerprintDeletion =
          c19State.waitingForFingerprintDeletion ∧
        (loop c19State).state.row0 = c19State.row0 ∧
        (loop c19State).state.row1 = c19State.row1 ∧
        (loop c19State).state.relayPin2 = v) ∧
      (b = true →
        (loop c19State).state.isLocked = false ∧
        (loop c19State).state.enteringEmergencyPassword =
          c19State.enteringEmergencyPassword ∧
        (loop c19State).state.waitingForFingerprintDeletion =
          c19State.waitingForFingerprintDeletion) :=
  C19_idle_iteration c19State (loop c19State).state [] rfl rfl (by decide)

end DoorLock
